import Mathlib

/-!
Verification development for the mortgage risk-assessment pipeline.

The Python sources are embedded shallowly:
* machine floats become exact rationals (`ℚ`);
* Python `dict` payloads (`financial_info`, `employment_info`, ...) become
  structures whose fields are `Option`-valued, `none` standing for an absent
  key; `dict.get(k, d)` becomes `Option.getD`, and Python truthiness of a
  numeric or string value is made explicit (`pyFalsy`);
* string interpolation in factor messages is elided: each factor keeps its
  fixed template text, since no decision in the code reads the interpolated
  digits back;
* summary strings and token/latency telemetry are not modelled: no branch of
  the embedded logic depends on them.
-/

namespace Mortgage

/-- Python truthiness for an optional numeric: `None` and `0` are falsy. -/
def pyFalsy (o : Option ℚ) : Bool :=
  match o with
  | none => true
  | some x => x == 0

/-- Python `x or d` on an optional numeric: `d` when `x` is `None` or `0`. -/
def pyOr (o : Option ℚ) (d : ℚ) : ℚ :=
  match o with
  | none => d
  | some x => if x == 0 then d else x

/-- Python `x or d` on an optional integer (loan term in months). -/
def pyOrInt (o : Option ℤ) (d : ℤ) : ℤ :=
  match o with
  | none => d
  | some x => if x == 0 then d else x

/-- Python truthiness for an optional integer. -/
def pyFalsyInt (o : Option ℤ) : Bool :=
  match o with
  | none => true
  | some x => x == 0

/-- Python truthiness for an optional string: `None` and `""` are falsy. -/
def pyTruthyStr (o : Option String) : Bool :=
  match o with
  | none => false
  | some s => !(s == "")

/-- Does the character list `s` start with the pattern `p`? -/
def startsWithChars : List Char → List Char → Bool
  | _, [] => true
  | [], _ :: _ => false
  | a :: as, b :: bs => a == b && startsWithChars as bs

/-- Substring test on character lists (Python `pat in s`). -/
def containsChars : List Char → List Char → Bool
  | [], p => p.isEmpty
  | s@(_ :: rest), p => startsWithChars s p || containsChars rest p

/-- Python `pat in s` on strings. -/
def strContains (s pat : String) : Bool :=
  containsChars s.toList pat.toList

/-- Python `str.lower()`, implemented structurally over the character list
(equivalent to `String.toLower`, which maps `Char.toLower` over the
string). -/
def pyLower (s : String) : String := String.mk (s.toList.map Char.toLower)

/-- The dict `employment_info` (only the keys the embedded code reads). -/
structure EmploymentInfo where
  annual_income : Option ℚ := none
  years_at_job : Option ℚ := none
  employment_status : Option String := none
  employer_name : Option String := none
  job_title : Option String := none
  previous_employer : Option String := none
  deriving Repr, DecidableEq

/-- The dict `financial_info`.  `monthly_debts` keeps the numeric entries of
the nested dict in insertion order; non-numeric entries, skipped by every
consumer in the source, are not modelled. -/
structure FinancialInfo where
  credit_score : Option ℚ := none
  credit_score_self_reported : Option ℚ := none
  total_assets : Option ℚ := none
  liquid_assets : Option ℚ := none
  additional_income : Option ℚ := none
  monthly_debts : List (String × ℚ) := []
  deriving Repr, DecidableEq

/-- The dict `property_info`. -/
structure PropertyInfo where
  purchase_price : Option ℚ := none
  property_type : Option String := none
  usage_type : Option String := none
  deriving Repr, DecidableEq

/-- The dict `declarations` (boolean flags; a missing key is falsy, so a
plain `Bool` with default `false` is faithful). -/
structure Declarations where
  has_bankruptcy : Bool := false
  has_foreclosure : Bool := false
  has_judgments : Bool := false
  has_delinquent_debt : Bool := false
  deriving Repr, DecidableEq

/-- One entry of `credit_report_data["tradelines"]` as read by the rule
scorers (`account_type` and the 24-month payment history). -/
structure TradelineDict where
  account_type : String := ""
  payment_history_24m : List String := []
  deriving Repr, DecidableEq

/-- One entry of `credit_report_data["fraud_alerts"]`. -/
structure FraudAlertDict where
  severity : String := ""
  description : String := ""
  deriving Repr, DecidableEq

/-- One entry of `credit_report_data["inquiries"]`. -/
structure InquiryDict where
  inquiry_type : String := ""
  deriving Repr, DecidableEq

/-- The serialized credit report dict, restricted to the keys the rule
scorers read.  All fields are optional because the scorers access them with
`dict.get` and a default. -/
structure CreditReportDict where
  credit_score : Option ℚ := none
  oldest_account_months : Option ℚ := none
  avg_account_age_months : Option ℚ := none
  credit_utilization : Option ℚ := none
  tradelines : List TradelineDict := []
  on_time_payments_pct : Option ℚ := none
  late_payments_30d : Option ℚ := none
  late_payments_60d : Option ℚ := none
  late_payments_90d : Option ℚ := none
  fraud_score : Option ℚ := none
  fraud_alerts : List FraudAlertDict := []
  inquiries : List InquiryDict := []
  deriving Repr, DecidableEq

/-- `ApplicationData` from `agents/base.py` (also standing in for the ORM
`Application` row, which exposes the same field names to the rule scorers). -/
structure ApplicationData where
  application_id : String := ""
  employment_info : EmploymentInfo := {}
  financial_info : FinancialInfo := {}
  property_info : PropertyInfo := {}
  declarations : Declarations := {}
  loan_amount : Option ℚ := none
  down_payment : Option ℚ := none
  dti_ratio : Option ℚ := none
  loan_term_months : Option ℤ := none
  base_interest_rate : Option ℚ := none
  deriving Repr, DecidableEq

/-- `AgentResult` from `agents/base.py` (telemetry fields omitted). -/
structure AgentResult where
  dimension_name : String
  agent_name : String
  score : ℚ
  weight : ℚ
  positive_factors : List String := []
  risk_factors : List String := []
  mitigating_factors : List String := []
  explanation : String := ""
  error : Option String := none
  deriving Repr, DecidableEq

/-- `AgentResult.weighted_score`. -/
def AgentResult.weighted_score (r : AgentResult) : ℚ := r.score * r.weight

/-- `AgentResult.succeeded`: the error slot is empty. -/
def AgentResult.succeeded (r : AgentResult) : Bool := r.error.isNone

/-- The validated aggregation dict (`parsed` in `risk_aggregation.py` after
clamping/validation, and the shape of the fallback result). -/
structure AggOutcome where
  overall_score : ℚ
  risk_band : String
  recommendation : String
  key_strengths : List String := []
  key_concerns : List String := []
  conditions : List String := []
  confidence : ℚ := 1/2
  deriving Repr, DecidableEq

/-- `dim_scores.get(name, default)` where
`dim_scores = {r.dimension_name: r.score for r in dimension_results if r.succeeded}`:
a Python dict comprehension keeps the **last** binding of a repeated key. -/
def dimScoreLookup (results : List AgentResult) (name : String) (dflt : ℚ) : ℚ :=
  match (results.filter (fun r => r.succeeded && r.dimension_name == name)).getLast? with
  | some r => r.score
  | none => dflt

/-- `RiskAggregationAgent._check_stress_test`: affordability under a 20%
income haircut and a +2 percentage-point rate shock, using the amortization
formula `P * r(1+r)^n / ((1+r)^n - 1)`. -/
def check_stress_test (data : ApplicationData) : Bool :=
  if pyFalsy data.dti_ratio || pyFalsy data.loan_amount then false
  else
    let annual_income := data.employment_info.annual_income.getD 0
    if annual_income ≤ 0 then false
    else
      let stressed_monthly_income := (annual_income * (80/100)) / 12
      let rate := pyOr data.base_interest_rate (13/2) + 2
      let monthly_rate := rate / 100 / 12
      let term := pyOrInt data.loan_term_months 360
      let loan := data.loan_amount.getD 0
      if 0 < monthly_rate ∧ 0 < term then
        let stressed_payment := loan * (
          monthly_rate * (1 + monthly_rate) ^ term.toNat
        ) / ((1 + monthly_rate) ^ term.toNat - 1)
        let total_other_debts := (data.financial_info.monthly_debts.map Prod.snd).sum
        let stressed_dti :=
          if 0 < stressed_monthly_income then
            (stressed_payment + total_other_debts) / stressed_monthly_income * 100
          else 100
        decide (50 < stressed_dti)
      else false

/-- `RiskAggregationAgent._check_reserve_deficit`: fewer than 3 months of
mortgage payments left after the down payment. -/
def check_reserve_deficit (data : ApplicationData) : Bool :=
  let liquid_assets := data.financial_info.liquid_assets.getD 0
  let down_payment := pyOr data.down_payment 0
  let reserves_after_dp := max 0 (liquid_assets - down_payment)
  if !(pyFalsy data.loan_amount) && !(pyFalsy data.base_interest_rate) then
    let rate := data.base_interest_rate.getD 0 / 100 / 12
    let term := pyOrInt data.loan_term_months 360
    let loan := data.loan_amount.getD 0
    let monthly_payment :=
      if 0 < rate then
        loan * (rate * (1 + rate) ^ term.toNat) / ((1 + rate) ^ term.toNat - 1)
      else loan / term
    decide (reserves_after_dp < monthly_payment * 3)
  else false

/-- Keyword list of `RiskAggregationAgent._detect_recovery_trajectory`. -/
def recoveryKeywords : List String :=
  ["recovery", "improving", "rebuilt", "restored",
   "clean recent", "on-time recent", "rehabilitated"]

/-- `RiskAggregationAgent._detect_recovery_trajectory`. -/
def detect_recovery_trajectory (results : List AgentResult) : Bool :=
  results.any (fun r =>
    (r.positive_factors ++ r.mitigating_factors).any (fun factor =>
      recoveryKeywords.any (fun kw => strContains (pyLower factor) kw)))

/-- `RiskAggregationAgent._apply_intelligent_overrides`. -/
def apply_intelligent_overrides (parsed : AggOutcome)
    (results : List AgentResult) (data : ApplicationData) : AggOutcome :=
  let overall_score := parsed.overall_score
  let fraud_score := dimScoreLookup results "fraud_risk" 0
  let compensating_score := dimScoreLookup results "compensating_factors" 50
  let stress_test_fails := check_stress_test data
  let reserve_deficit := check_reserve_deficit data
  let conditions := parsed.conditions
  if 60 ≤ fraud_score then
    { parsed with
      recommendation := "deny"
      key_concerns := "Elevated fraud risk indicators detected" :: parsed.key_concerns }
  else if 80 ≤ overall_score then
    if stress_test_fails then
      { parsed with
        recommendation := "conditional_approve"
        conditions := conditions ++
          ["Rate lock and income verification required before closing",
           "Escrow account required"] }
    else
      { parsed with recommendation := "approve", conditions := conditions }
  else if 60 ≤ overall_score then
    if 70 ≤ compensating_score && detect_recovery_trajectory results then
      { parsed with
        recommendation := "conditional_approve"
        conditions := conditions ++
          ["Employment verification within 10 days of closing",
           "Additional documentation of income stability required"] }
    else if stress_test_fails || reserve_deficit then
      { parsed with recommendation := "deny", conditions := conditions }
    else
      { parsed with recommendation := "review", conditions := conditions }
  else if 40 ≤ overall_score then
    if 75 ≤ compensating_score then
      { parsed with recommendation := "review", conditions := conditions }
    else
      { parsed with recommendation := "deny", conditions := conditions }
  else
    { parsed with recommendation := "deny", conditions := conditions }

/-- `RiskAggregationAgent._rule_based_aggregation` (summary text and the
telemetry fields are not modelled). -/
def rule_based_aggregation (results : List AgentResult)
    (data : ApplicationData) : AggOutcome :=
  let total_weighted := ((results.filter (fun r => r.succeeded)).map
    (fun r => r.weighted_score)).sum
  let total_weight := ((results.filter (fun r => r.succeeded)).map
    (fun r => r.weight)).sum
  let overall := if 0 < total_weight then total_weighted / total_weight else 50
  let fraud_score := dimScoreLookup results "fraud_risk" 0
  let compensating_score := dimScoreLookup results "compensating_factors" 50
  let stress_test_fails := check_stress_test data
  let br :=
    if 60 ≤ fraud_score then ("critical", "deny", ([] : List String))
    else if 80 ≤ overall then
      if stress_test_fails then
        ("low", "conditional_approve", ["Rate lock and income verification required"])
      else ("low", "approve", [])
    else if 60 ≤ overall then
      if 70 ≤ compensating_score then
        ("medium", "conditional_approve", ["Additional documentation required"])
      else if stress_test_fails then ("medium", "deny", [])
      else ("medium", "review", [])
    else if 40 ≤ overall then
      if 75 ≤ compensating_score then ("high", "review", [])
      else ("high", "deny", [])
    else ("critical", "deny", [])
  let all_risks := results.flatMap (fun r => r.risk_factors.take 2)
  let all_positives := results.flatMap (fun r => r.positive_factors.take 2)
  { overall_score := overall
    risk_band := br.1
    recommendation := br.2.1
    key_strengths := all_positives.take 5
    key_concerns := all_risks.take 5
    conditions := br.2.2
    confidence := 1/2 }

/-- The inline rule-based aggregation of `run_pipeline` (the `use_llm = False`
branch, `pipeline.py` lines 168-197). -/
def pipeline_fallback_aggregation (results : List AgentResult) : AggOutcome :=
  let total_weighted := ((results.filter (fun r => r.succeeded)).map
    (fun r => r.weighted_score)).sum
  let total_weight := ((results.filter (fun r => r.succeeded)).map
    (fun r => r.weight)).sum
  let overall := if 0 < total_weight then total_weighted / total_weight else 50
  let br :=
    if 80 ≤ overall then ("low", "approve")
    else if 60 ≤ overall then ("medium", "review")
    else if 40 ≤ overall then ("high", "review")
    else ("critical", "deny")
  let all_risks := results.flatMap (fun r => r.risk_factors.take 2)
  let all_positives := results.flatMap (fun r => r.positive_factors.take 2)
  { overall_score := overall
    risk_band := br.1
    recommendation := br.2
    key_strengths := all_positives.take 5
    key_concerns := all_risks.take 5
    conditions := []
    confidence := 3/5 }

/-- Raw (pre-validation) LLM aggregation output: the parsed JSON dict of
`RiskAggregationAgent.aggregate` before clamping.  A `none` field stands for
a missing key; a JSON value that would make `float(...)` raise is part of the
LLM-error case, which is modelled separately. -/
structure RawAggregation where
  overall_score : Option ℚ := none
  risk_band : Option String := none
  recommendation : Option String := none
  key_strengths : List String := []
  key_concerns : List String := []
  conditions : List String := []
  confidence : ℚ := 1/2
  deriving Repr, DecidableEq

/-- Valid risk bands. -/
def validBands : List String := ["low", "medium", "high", "critical"]

/-- Valid recommendations. -/
def validRecs : List String := ["approve", "conditional_approve", "review", "deny"]

/-- Band derivation from thresholds (`aggregate`, lines 144-152). -/
def bandFromScore (score : ℚ) : String :=
  if 80 ≤ score then "low"
  else if 60 ≤ score then "medium"
  else if 40 ≤ score then "high"
  else "critical"

/-- The validation step of `RiskAggregationAgent.aggregate` (lines 138-157):
clamp the overall score, correct an unrecognized risk band from thresholds,
and default an unrecognized recommendation to "review". -/
def validate_aggregation (raw : RawAggregation) : AggOutcome :=
  let score := max 0 (min 100 (raw.overall_score.getD 50))
  let band :=
    match raw.risk_band with
    | some b => if validBands.contains b then b else bandFromScore score
    | none => bandFromScore score
  let rec_ :=
    match raw.recommendation with
    | some r => if validRecs.contains r then r else "review"
    | none => "review"
  { overall_score := score
    risk_band := band
    recommendation := rec_
    key_strengths := raw.key_strengths
    key_concerns := raw.key_concerns
    conditions := raw.conditions
    confidence := raw.confidence }

/-- `RiskAggregationAgent.aggregate`: on a successful LLM call (`some raw`)
validate and apply the intelligent overrides; on an LLM failure (`none`) fall
back to the rule-based aggregation. -/
def aggregate (data : ApplicationData) (results : List AgentResult)
    (llm : Option RawAggregation) : AggOutcome :=
  match llm with
  | some raw => apply_intelligent_overrides (validate_aggregation raw) results data
  | none => rule_based_aggregation results data

/-! ## Pipeline orchestrator (`agents/pipeline.py`, `agents/base.py`) -/

/-- The parsed JSON dict an agent's LLM call returns (`llm_output` in
`BaseAgent.parse_result`). -/
structure LlmOutput where
  score : Option ℚ := none
  positive_factors : List String := []
  risk_factors : List String := []
  mitigating_factors : List String := []
  explanation : String := ""
  deriving Repr, DecidableEq

/-- The class-level identity of one dimension agent. -/
structure AgentSpec where
  dimension_name : String
  agent_name : String
  weight : ℚ
  deriving Repr, DecidableEq

/-- What happened when one agent was executed by the thread pool: the LLM
call parsed (`ok`), the LLM call raised inside `BaseAgent.analyze`
(`llmError`, caught there), or the agent call itself crashed and the
exception surfaced at `future.result()` (`crashed`, caught in
`run_pipeline`). -/
inductive AgentRun where
  | ok (out : LlmOutput)
  | llmError (msg : String)
  | crashed (msg : String)
  deriving Repr, DecidableEq

/-- Did this agent execution raise an exception (at either catch site)? -/
def AgentRun.raised : AgentRun → Bool
  | .ok _ => false
  | .llmError _ => true
  | .crashed _ => true

/-- `BaseAgent.parse_result`: clamp the score to [0, 100]; the error slot
stays empty. -/
def parse_result (spec : AgentSpec) (out : LlmOutput) : AgentResult :=
  let score := max 0 (min 100 (out.score.getD 50))
  { dimension_name := spec.dimension_name
    agent_name := spec.agent_name
    score := score
    weight := spec.weight
    positive_factors := out.positive_factors
    risk_factors := out.risk_factors
    mitigating_factors := out.mitigating_factors
    explanation := out.explanation
    error := none }

/-- `BaseAgent.analyze`: parse on success; on any exception return the
neutral score 50 with the error recorded. -/
def analyze (spec : AgentSpec) : AgentRun → AgentResult
  | .ok out => parse_result spec out
  | .llmError e =>
    { dimension_name := spec.dimension_name
      agent_name := spec.agent_name
      score := 50
      weight := spec.weight
      risk_factors := ["AI analysis unavailable: agent error"]
      explanation := "Agent encountered an error. Using neutral score."
      error := some (e.take 500) }
  | .crashed e =>
    -- an exception that escaped analyze would also be built here; the
    -- pipeline-level substitute below is the branch that actually models it
    { dimension_name := spec.dimension_name
      agent_name := spec.agent_name
      score := 50
      weight := spec.weight
      risk_factors := ["AI analysis unavailable: agent error"]
      explanation := "Agent encountered an error. Using neutral score."
      error := some (e.take 500) }

/-- The collection loop of `run_pipeline` (lines 94-109): take the agent's
result, or substitute the crash result built in the `except` branch. -/
def collectAgent : AgentSpec × AgentRun → AgentResult
  | (spec, .crashed e) =>
    { dimension_name := spec.dimension_name
      agent_name := spec.agent_name
      score := 50
      weight := spec.weight
      risk_factors := ["Agent execution failed"]
      explanation := "Agent crashed: " ++ e.take 200
      error := some (e.take 500) }
  | (spec, run) => analyze spec run

/-- Lexicographic code-point comparison of character lists (Python string
`<=`). -/
def charListLe : List Char → List Char → Bool
  | [], _ => true
  | _ :: _, [] => false
  | a :: as, b :: bs =>
    if a.toNat < b.toNat then true
    else if b.toNat < a.toNat then false
    else charListLe as bs

/-- Python string comparison `a <= b` (code-point lexicographic). -/
def strLe (a b : String) : Bool := charListLe a.toList b.toList

/-- Stable insertion of a result into a name-sorted list. -/
def insertByName (x : AgentResult) : List AgentResult → List AgentResult
  | [] => [x]
  | y :: ys =>
    if strLe x.dimension_name y.dimension_name then x :: y :: ys
    else y :: insertByName x ys

/-- `dimension_results.sort(key=lambda r: r.dimension_name)`: Python's sort
is stable, so a stable insertion sort on the dimension name is a faithful
model. -/
def sortByName : List AgentResult → List AgentResult
  | [] => []
  | x :: xs => insertByName x (sortByName xs)

/-- `DIMENSION_WEIGHTS` from `worker/tasks/risk_assessment.py`. -/
def DIMENSION_WEIGHTS : List (String × ℚ) :=
  [("credit_profile", 12/100),
   ("credit_history_depth", 10/100),
   ("payment_history", 12/100),
   ("income_stability", 12/100),
   ("earning_potential", 8/100),
   ("debt_to_income", 13/100),
   ("down_payment", 8/100),
   ("employment_history", 5/100),
   ("property_assessment", 5/100),
   ("fraud_risk", 5/100),
   ("compensating_factors", 10/100)]

/-- `DIMENSION_WEIGHTS.get(dim_name, 0.1)`. -/
def weightOf (name : String) : ℚ :=
  match DIMENSION_WEIGHTS.lookup name with
  | some w => w
  | none => 1/10

/-! ## Rule-based dimension scorers (`worker/tasks/risk_assessment.py`)

Factor strings keep their fixed template text; interpolated numbers are
elided.  `credit_report_data` is `some d` exactly when the Python dict is
present and non-empty (`if not credit_report_data:`). -/

/-- The dict returned by each `_score_*` function. -/
structure ScoreOutcome where
  score : ℚ
  positive_factors : List String := []
  risk_factors : List String := []
  mitigating_factors : List String := []
  explanation : String := ""
  deriving Repr, DecidableEq

/-- The credit-score banding block of `_score_credit_profile`. -/
def credit_profile_base (credit_score : ℚ) : ScoreOutcome :=
  if 760 ≤ credit_score then
    { score := 95, positive_factors := ["Excellent credit score (760+)"] }
  else if 700 ≤ credit_score then
    { score := 80, positive_factors := ["Good credit score (700-759)"] }
  else if 660 ≤ credit_score then
    { score := 65, positive_factors := ["Fair credit score (660-699)"],
      risk_factors := ["Credit score below preferred threshold of 700"] }
  else if 620 ≤ credit_score then
    { score := 45, risk_factors := ["Below-average credit score (620-659)"],
      mitigating_factors := ["Score meets minimum FHA requirements"] }
  else if 0 < credit_score then
    { score := 25, risk_factors := ["Low credit score"] }
  else
    { score := 30, risk_factors := ["Credit score not provided"] }

/-- The derogatory-declaration penalties of `_score_credit_profile`. -/
def credit_profile_after_derog (decl : Declarations) (o : ScoreOutcome) : ScoreOutcome :=
  let o :=
    if decl.has_bankruptcy then
      { o with
        score := max (o.score - 20) 10
        risk_factors := o.risk_factors ++ ["History of bankruptcy declared"] }
    else o
  if decl.has_foreclosure then
    { o with
      score := max (o.score - 25) 10
      risk_factors := o.risk_factors ++ ["History of foreclosure declared"] }
  else o

/-- The income-adjusted credit evaluation of `_score_credit_profile`. -/
def credit_profile_income_adjusted (annual_income credit_score : ℚ)
    (o : ScoreOutcome) : ScoreOutcome :=
  if 150000 ≤ annual_income ∧ 620 ≤ credit_score then
    let adjustment := min 8 ((annual_income - 100000) / 25000)
    { o with
      score := min 100 (o.score + adjustment)
      mitigating_factors := o.mitigating_factors ++
        ["Income-adjusted: high income offsets credit concerns"] }
  else o

/-- The credit score `_score_credit_profile` evaluates: the bureau score
when present and truthy, else the self-reported score (default 0). -/
def credit_profile_score_input (app : ApplicationData)
    (crd : Option CreditReportDict) : ℚ :=
  let self_score := app.financial_info.credit_score.getD 0
  match crd with
  | some d =>
    match d.credit_score with
    | some b => if b == 0 then self_score else b
    | none => self_score
  | none => self_score

/-- `_score_credit_profile`. -/
def score_credit_profile (app : ApplicationData)
    (crd : Option CreditReportDict) : ScoreOutcome :=
  let credit_score := credit_profile_score_input app crd
  let o := credit_profile_base credit_score
  let o := credit_profile_after_derog app.declarations o
  let o := credit_profile_income_adjusted
    (app.employment_info.annual_income.getD 0) credit_score o
  { o with explanation := "Credit profile based on reported score." }

/-- `_score_credit_history_depth`. -/
def score_credit_history_depth (_app : ApplicationData)
    (crd : Option CreditReportDict) : ScoreOutcome :=
  match crd with
  | none =>
    { score := 50, risk_factors := ["No credit bureau data available"],
      explanation := "Credit history depth could not be evaluated without bureau data." }
  | some d =>
    let oldest_months := d.oldest_account_months.getD 0
    let avg_age_months := d.avg_account_age_months.getD 0
    let utilization := d.credit_utilization.getD 50
    let oldest_years := oldest_months / 12
    let o : ScoreOutcome := { score := 50 }
    let o :=
      if 15 ≤ oldest_years then
        { o with
          score := o.score + 25
          positive_factors := o.positive_factors ++ ["Excellent credit history length"] }
      else if 10 ≤ oldest_years then
        { o with
          score := o.score + 20
          positive_factors := o.positive_factors ++ ["Long credit history"] }
      else if 5 ≤ oldest_years then
        { o with
          score := o.score + 10
          positive_factors := o.positive_factors ++ ["Moderate credit history"] }
      else if 2 ≤ oldest_years then
        { o with risk_factors := o.risk_factors ++ ["Short credit history"] }
      else
        { o with
          score := o.score - 10
          risk_factors := o.risk_factors ++ ["Very short credit history"] }
    let o :=
      if 60 ≤ avg_age_months then
        { o with
          score := o.score + 10
          positive_factors := o.positive_factors ++ ["Strong average account age"] }
      else o
    let account_types := (d.tradelines.map (fun t => t.account_type)).dedup
    let o :=
      if 3 ≤ account_types.length then
        { o with
          score := o.score + 10
          positive_factors := o.positive_factors ++ ["Diverse credit mix"] }
      else if account_types.length == 1 then
        { o with risk_factors := o.risk_factors ++ ["Limited credit mix (single account type)"] }
      else o
    let o :=
      if utilization ≤ 10 then
        { o with
          score := o.score + 10
          positive_factors := o.positive_factors ++ ["Very low utilization"] }
      else if utilization ≤ 30 then
        { o with
          score := o.score + 5
          positive_factors := o.positive_factors ++ ["Good utilization"] }
      else if 70 ≤ utilization then
        { o with
          score := o.score - 15
          risk_factors := o.risk_factors ++ ["High utilization — potential debt accumulation"] }
      else if 50 ≤ utilization then
        { o with
          score := o.score - 5
          risk_factors := o.risk_factors ++ ["Elevated utilization"] }
      else o
    { o with
      score := max 0 (min 100 o.score)
      explanation := "Credit history depth summary." }

/-- `_score_payment_history`. -/
def score_payment_history (app : ApplicationData)
    (crd : Option CreditReportDict) : ScoreOutcome :=
  match crd with
  | none =>
    { score := 50, risk_factors := ["No credit bureau data available"],
      explanation := "Payment history could not be evaluated without bureau data." }
  | some d =>
    let on_time_pct := d.on_time_payments_pct.getD 100
    let late_30 := d.late_payments_30d.getD 0
    let late_60 := d.late_payments_60d.getD 0
    let late_90 := d.late_payments_90d.getD 0
    let o : ScoreOutcome :=
      if 99 ≤ on_time_pct then
        { score := 95, positive_factors := ["Excellent payment history"] }
      else if 97 ≤ on_time_pct then
        { score := 85, positive_factors := ["Very good payment history"] }
      else if 95 ≤ on_time_pct then
        { score := 75, positive_factors := ["Good payment history"] }
      else if 90 ≤ on_time_pct then
        { score := 55, risk_factors := ["Fair payment history"] }
      else
        { score := 30, risk_factors := ["Poor payment history"] }
    let total_lates := late_30 + late_60 + late_90
    let o :=
      if 0 < late_90 then
        { o with
          score := o.score - late_90 * 8
          risk_factors := o.risk_factors ++ ["Payment(s) 90+ days late"] }
      else o
    let o :=
      if 0 < late_60 then
        { o with
          score := o.score - late_60 * 5
          risk_factors := o.risk_factors ++ ["Payment(s) 60 days late"] }
      else o
    let o :=
      if 0 < late_30 then { o with score := o.score - late_30 * 2 } else o
    let recent_clean := d.tradelines.all
      (fun t => (t.payment_history_24m.take 12).all (fun p => p == "OK"))
    let o :=
      if 0 < total_lates ∧ recent_clean then
        { o with
          score := o.score + 10
          mitigating_factors := o.mitigating_factors ++
            ["Clean recent payment history (12 months) — past lates are aging off"] }
      else o
    let o :=
      if (app.declarations.has_bankruptcy || app.declarations.has_foreclosure)
          ∧ recent_clean then
        { o with
          score := o.score + 12
          mitigating_factors := o.mitigating_factors ++
            ["Recovery trajectory: past derogatory marks with clean recent payments"] }
      else o
    { o with
      score := max 0 (min 100 o.score)
      explanation := "Payment history summary." }

/-- The employment-status block of `_score_income_stability`. -/
def income_stability_status (emp_status : String) (o : ScoreOutcome) : ScoreOutcome :=
  if emp_status == "employed" then
    { o with
      score := o.score + 15
      positive_factors := o.positive_factors ++ ["Currently employed"] }
  else if emp_status == "self_employed" then
    { o with
      score := o.score + 5
      risk_factors := o.risk_factors ++ ["Self-employed income may be variable"] }
  else if emp_status == "retired" then
    { o with
      score := o.score + 10
      positive_factors := o.positive_factors ++ ["Retired with stable income"] }
  else o

/-- The tenure block of `_score_income_stability`. -/
def income_stability_tenure (years : ℚ) (o : ScoreOutcome) : ScoreOutcome :=
  if 5 ≤ years then
    { o with
      score := o.score + 20
      positive_factors := o.positive_factors ++ ["Long tenure"] }
  else if 2 ≤ years then
    { o with
      score := o.score + 10
      positive_factors := o.positive_factors ++ ["Stable employment"] }
  else if 0 < years then
    { o with risk_factors := o.risk_factors ++ ["Short tenure"] }
  else o

/-- The income-to-loan block of `_score_income_stability`. -/
def income_stability_ratio (loan_amount : Option ℚ) (annual_income : ℚ)
    (o : ScoreOutcome) : ScoreOutcome :=
  if pyFalsy loan_amount = false ∧ 0 < annual_income then
    let ratio := annual_income / loan_amount.getD 0
    if 1/2 ≤ ratio then
      { o with
        score := o.score + 15
        positive_factors := o.positive_factors ++ ["Strong income-to-loan ratio"] }
    else if 1/4 ≤ ratio then { o with score := o.score + 5 }
    else o
  else o

/-- `_score_income_stability`. -/
def score_income_stability (app : ApplicationData)
    (_crd : Option CreditReportDict) : ScoreOutcome :=
  let employment := app.employment_info
  let emp_status := pyLower (employment.employment_status.getD "")
  let years := employment.years_at_job.getD 0
  let o : ScoreOutcome := { score := 50 }
  let o := income_stability_status emp_status o
  let o := income_stability_tenure years o
  let o := income_stability_ratio app.loan_amount (employment.annual_income.getD 0) o
  { o with
    score := min o.score 100
    explanation := "Income stability assessment." }

/-- Commission/gig keyword list of `_score_earning_potential`. -/
def commissionKeywords : List String :=
  ["sales", "realtor", "agent", "broker", "freelance", "contractor", "gig"]

/-- `_score_earning_potential`. -/
def score_earning_potential (app : ApplicationData)
    (_crd : Option CreditReportDict) : ScoreOutcome :=
  let employment := app.employment_info
  let financial := app.financial_info
  let annual_income := employment.annual_income.getD 0
  let years_at_job := employment.years_at_job.getD 0
  let emp_status := pyLower (employment.employment_status.getD "")
  let o : ScoreOutcome := { score := 50 }
  let o :=
    if 200000 ≤ annual_income then
      { o with
        score := o.score + 20
        positive_factors := o.positive_factors ++ ["High income"] }
    else if 100000 ≤ annual_income then
      { o with
        score := o.score + 15
        positive_factors := o.positive_factors ++ ["Strong income"] }
    else if 60000 ≤ annual_income then { o with score := o.score + 5 }
    else if 0 < annual_income then
      { o with risk_factors := o.risk_factors ++ ["Modest income"] }
    else o
  let o :=
    if emp_status == "employed" ∧ 5 ≤ years_at_job then
      { o with
        score := o.score + 15
        positive_factors := o.positive_factors ++
          ["Long tenure suggests career stability"] }
    else if emp_status == "self_employed" then
      if 2 ≤ years_at_job then
        { o with
          score := o.score + 5
          positive_factors := o.positive_factors ++
            ["Self-employed with 2+ years history"] }
      else
        { o with
          score := o.score - 10
          risk_factors := o.risk_factors ++
            ["Self-employed less than 2 years — income sustainability uncertain"] }
    else o
  let additional_income := financial.additional_income.getD 0
  let o :=
    if 0 < additional_income then
      { o with
        score := o.score + 8
        positive_factors := o.positive_factors ++ ["Diversified income sources"] }
    else o
  let job_title := pyLower (employment.job_title.getD "")
  let o :=
    if commissionKeywords.any (fun kw => strContains job_title kw) then
      { o with
        score := o.score - 5
        risk_factors := o.risk_factors ++
          ["Commission/variable income role — may require additional verification"] }
    else o
  { o with
    score := max 0 (min 100 o.score)
    explanation := "Earning potential summary." }

/-- `_score_debt_to_income`. -/
def score_debt_to_income (app : ApplicationData)
    (_crd : Option CreditReportDict) : ScoreOutcome :=
  let dti : Option ℚ := if pyFalsy app.dti_ratio then none else app.dti_ratio
  match dti with
  | some d =>
    let o : ScoreOutcome :=
      if d ≤ 28 then { score := 95, positive_factors := ["Excellent DTI"] }
      else if d ≤ 36 then { score := 80, positive_factors := ["Good DTI"] }
      else if d ≤ 43 then { score := 60, risk_factors := ["DTI near limit"] }
      else if d ≤ 50 then { score := 35, risk_factors := ["High DTI"] }
      else { score := 15, risk_factors := ["Very high DTI"] }
    let o :=
      if 43 < d then
        { o with
          risk_factors := o.risk_factors ++
            ["Back-end DTI exceeds 43% QM threshold — requires compensating factors for approval"] }
      else o
    { o with explanation := "DTI ratio summary." }
  | none =>
    { score := 50, risk_factors := ["Unable to calculate DTI"],
      explanation := "DTI unavailable." }

/-- `_score_down_payment`. -/
def score_down_payment (app : ApplicationData)
    (_crd : Option CreditReportDict) : ScoreOutcome :=
  let dp := pyOr app.down_payment 0
  let pp := (app.property_info.purchase_price).getD 0
  let o : ScoreOutcome :=
    if !(pp == 0) ∧ !(dp == 0) then
      let pct := dp / pp * 100
      if 20 ≤ pct then { score := 95, positive_factors := ["Strong down payment"] }
      else if 10 ≤ pct then { score := 75, positive_factors := ["Moderate"] }
      else if 5 ≤ pct then { score := 55, risk_factors := ["Low down payment"] }
      else if 7/2 ≤ pct then { score := 40, risk_factors := ["Minimum down payment"] }
      else { score := 20, risk_factors := ["Below minimum"] }
    else { score := 50, risk_factors := ["Down payment data unavailable"] }
  { o with explanation := "Down payment assessment." }

/-- `_score_employment_history`. -/
def score_employment_history (app : ApplicationData)
    (_crd : Option CreditReportDict) : ScoreOutcome :=
  let emp := app.employment_info
  let o : ScoreOutcome := { score := 50 }
  let o :=
    if pyTruthyStr emp.employer_name && pyTruthyStr emp.job_title then
      { o with
        score := o.score + 10
        positive_factors := o.positive_factors ++ ["Complete employment info"] }
    else o
  let o :=
    if emp.employment_status == some "employed" ∧ 2 ≤ emp.years_at_job.getD 0 then
      { o with
        score := o.score + 25
        positive_factors := o.positive_factors ++ ["Stable employment"] }
    else o
  let o :=
    if pyTruthyStr emp.previous_employer then
      { o with
        score := o.score + 10
        positive_factors := o.positive_factors ++ ["History documented"] }
    else o
  { o with
    score := min o.score 100
    explanation := "Employment history assessment." }

/-- `_score_property_assessment`. -/
def score_property_assessment (app : ApplicationData)
    (_crd : Option CreditReportDict) : ScoreOutcome :=
  let prop := app.property_info
  let ptype := prop.property_type.getD ""
  let o : ScoreOutcome := { score := 50 }
  let o :=
    if ptype == "single_family" || ptype == "townhouse" then
      { o with
        score := o.score + 20
        positive_factors := o.positive_factors ++ ["Standard type"] }
    else if ptype == "condo" then
      { o with
        score := o.score + 15
        positive_factors := o.positive_factors ++ ["Condominium"] }
    else o
  let usage := prop.usage_type.getD ""
  let o :=
    if usage == "primary_residence" then
      { o with
        score := o.score + 20
        positive_factors := o.positive_factors ++ ["Primary residence"] }
    else if usage == "investment" then
      { o with risk_factors := o.risk_factors ++ ["Investment property"] }
    else o
  let o :=
    if 100000 ≤ prop.purchase_price.getD 0 then
      { o with
        score := o.score + 10
        positive_factors := o.positive_factors ++ ["Property value supports collateral"] }
    else o
  { o with
    score := min o.score 100
    explanation := "Property assessment." }

/-- `_score_fraud_risk`. -/
def score_fraud_risk (_app : ApplicationData)
    (crd : Option CreditReportDict) : ScoreOutcome :=
  match crd with
  | none =>
    { score := 70,
      positive_factors := ["No fraud indicators without bureau data"],
      explanation := "Fraud risk could not be fully evaluated without bureau data." }
  | some d =>
    let fraud_score := d.fraud_score.getD 0
    let utilization := d.credit_utilization.getD 0
    let o : ScoreOutcome :=
      if 60 ≤ fraud_score then
        { score := 15, risk_factors := ["High fraud risk score"] }
      else if 40 ≤ fraud_score then
        { score := 45, risk_factors := ["Elevated fraud risk score"] }
      else if 20 ≤ fraud_score then
        { score := 70, risk_factors := ["Minor fraud indicators"] }
      else
        { score := 90, positive_factors := ["Low fraud risk"] }
    let high_alerts := d.fraud_alerts.filter (fun a => a.severity == "high")
    let o :=
      if !high_alerts.isEmpty then
        { o with
          score := o.score - high_alerts.length * 15
          risk_factors := o.risk_factors ++
            high_alerts.map (fun a => "[HIGH] " ++ a.description) }
      else o
    let o :=
      if 70 < utilization then
        { o with
          score := o.score - 10
          risk_factors := o.risk_factors ++
            ["High utilization indicates potential debt accumulation"] }
      else o
    let recent_inquiries :=
      (d.inquiries.filter (fun i => !(i.inquiry_type == "mortgage"))).length
    let o :=
      if 3 < recent_inquiries then
        { o with
          score := o.score - 10
          risk_factors := o.risk_factors ++
            ["Non-mortgage inquiries — possible credit seeking behavior"] }
      else o
    let o :=
      if o.risk_factors.isEmpty then
        { o with positive_factors := o.positive_factors ++ ["No fraud indicators detected"] }
      else o
    { o with
      score := max 0 (min 100 o.score)
      explanation := "Fraud risk assessment from bureau fraud score." }

/-- `_score_compensating_factors`. -/
def score_compensating_factors (app : ApplicationData)
    (crd : Option CreditReportDict) : ScoreOutcome :=
  let financial := app.financial_info
  let employment := app.employment_info
  let dp := pyOr app.down_payment 0
  let pp := app.property_info.purchase_price.getD 0
  let dp_pct := if !(pp == 0) ∧ !(dp == 0) then dp / pp * 100 else 0
  let annual_income := employment.annual_income.getD 0
  let years_at_job := employment.years_at_job.getD 0
  let liquid_assets := financial.liquid_assets.getD 0
  let dti : Option ℚ := if pyFalsy app.dti_ratio then none else app.dti_ratio
  let loan_amount := pyOr app.loan_amount 0
  let o : ScoreOutcome := { score := 50 }
  let o :=
    if 25 ≤ dp_pct then
      { o with
        score := o.score + 10
        positive_factors := o.positive_factors ++
          ["Large down payment demonstrates commitment"] }
    else if 20 ≤ dp_pct then
      { o with
        score := o.score + 6
        positive_factors := o.positive_factors ++ ["Standard 20%+ down payment"] }
    else o
  let monthly_payment : ℚ :=
    if 0 < loan_amount then
      let rate : ℚ := (13/2) / 100 / 12
      loan_amount * (rate * (1 + rate) ^ (360 : ℕ)) / ((1 + rate) ^ (360 : ℕ) - 1)
    else 0
  let reserves_after_dp := max 0 (liquid_assets - dp)
  let months_of_reserves :=
    if 0 < monthly_payment then reserves_after_dp / monthly_payment else 0
  let o :=
    if 12 ≤ months_of_reserves then
      { o with
        score := o.score + 10
        positive_factors := o.positive_factors ++ ["Excellent reserves"] }
    else if 6 ≤ months_of_reserves then
      { o with
        score := o.score + 6
        positive_factors := o.positive_factors ++ ["Good reserves"] }
    else if 3 ≤ months_of_reserves then { o with score := o.score + 2 }
    else if 0 < monthly_payment then
      { o with
        score := o.score - 10
        risk_factors := o.risk_factors ++
          ["Thin reserves — less than 3 months of mortgage payments after down payment"] }
    else o
  let annual_mortgage := monthly_payment * 12
  let o :=
    if 0 < annual_income ∧ 0 < annual_mortgage then
      if 3 ≤ annual_income / annual_mortgage then
        { o with
          score := o.score + 8
          positive_factors := o.positive_factors ++
            ["Income covers annual mortgage obligation multiple times"] }
      else o
    else o
  let o :=
    match dti with
    | some d =>
      if d ≤ 28 then
        { o with
          score := o.score + 6
          positive_factors := o.positive_factors ++
            ["Conservative DTI provides payment cushion"] }
      else o
    | none => o
  let o :=
    if 5 ≤ years_at_job then
      { o with
        score := o.score + 5
        positive_factors := o.positive_factors ++ ["Employment stability"] }
    else o
  let has_derogatory :=
    app.declarations.has_bankruptcy || app.declarations.has_foreclosure
  let o :=
    match crd with
    | some d =>
      if has_derogatory then
        let recent_all_clean := d.tradelines.all
          (fun t => (t.payment_history_24m.take 24).all (fun p => p == "OK"))
        if recent_all_clean ∧ !d.tradelines.isEmpty then
          { o with
            score := o.score + 12
            positive_factors := o.positive_factors ++
              ["Recovery trajectory: past derogatory marks with 24 months of clean payment history"] }
        else o
      else o
    | none => o
  let o :=
    if 0 < annual_income ∧ 0 < loan_amount then
      let stressed_monthly_income := (annual_income * (80/100)) / 12
      let stressed_rate : ℚ := (17/2) / 100 / 12
      let stressed_payment := loan_amount * (
        stressed_rate * (1 + stressed_rate) ^ (360 : ℕ)
      ) / ((1 + stressed_rate) ^ (360 : ℕ) - 1)
      let total_debts := (financial.monthly_debts.map Prod.snd).sum
      let stressed_dti :=
        (stressed_payment + total_debts) / stressed_monthly_income * 100
      if stressed_dti ≤ 43 then
        { o with
          score := o.score + 8
          positive_factors := o.positive_factors ++
            ["Passes stress test under 20% income reduction + 2% rate increase"] }
      else if 50 < stressed_dti then
        { o with
          score := o.score - 8
          risk_factors := o.risk_factors ++
            ["Fails stress test under adverse conditions (20% income drop + 2% rate increase)"] }
      else o
    else o
  { o with
    score := max 0 (min 100 o.score)
    explanation := "Compensating factors assessment." }

/-- `DIMENSION_SCORERS` (insertion order of the Python dict). -/
def DIMENSION_SCORERS :
    List (String × (ApplicationData → Option CreditReportDict → ScoreOutcome)) :=
  [("credit_profile", score_credit_profile),
   ("credit_history_depth", score_credit_history_depth),
   ("payment_history", score_payment_history),
   ("income_stability", score_income_stability),
   ("earning_potential", score_earning_potential),
   ("debt_to_income", score_debt_to_income),
   ("down_payment", score_down_payment),
   ("employment_history", score_employment_history),
   ("property_assessment", score_property_assessment),
   ("fraud_risk", score_fraud_risk),
   ("compensating_factors", score_compensating_factors)]

/-- The `use_llm = False` scorer loop of `run_pipeline` (lines 110-148): each
rule scorer runs on the reloaded application with no bureau dict and its
outcome is wrapped as an `AgentResult` (the scorers are total, so the
`except` branch of the loop is unreachable in the model). -/
def ruleDimensionResults (app : ApplicationData) : List AgentResult :=
  DIMENSION_SCORERS.map (fun nf =>
    let s := nf.2 app none
    { dimension_name := nf.1
      agent_name := "rule_engine"
      score := s.score
      weight := weightOf nf.1
      positive_factors := s.positive_factors
      risk_factors := s.risk_factors
      mitigating_factors := s.mitigating_factors
      explanation := s.explanation
      error := none })

/-- The fields of `PipelineResult` the claims are about. -/
structure PipelineResultM where
  overall_score : ℚ
  risk_band : String
  recommendation : String
  conditions : List String
  dimension_results : List AgentResult
  agents_succeeded : Nat
  agents_failed : Nat
  deriving Repr, DecidableEq

/-- `run_pipeline`: collect dimension results (from the parallel agents when
`use_llm`, from the rule scorers otherwise), sort them by dimension name,
count successes/failures, and aggregate (through
`RiskAggregationAgent.aggregate` when `use_llm`, through the inline weighted
average otherwise). -/
def run_pipeline (data : ApplicationData)
    (agents : List (AgentSpec × AgentRun)) (use_llm : Bool)
    (llmAgg : Option RawAggregation) : PipelineResultM :=
  let collected :=
    if use_llm then agents.map collectAgent else ruleDimensionResults data
  let dimension_results := sortByName collected
  let succeeded := dimension_results.countP (fun r => r.succeeded)
  let failed := dimension_results.countP (fun r => !r.succeeded)
  let agg :=
    if use_llm then aggregate data dimension_results llmAgg
    else pipeline_fallback_aggregation dimension_results
  { overall_score := agg.overall_score
    risk_band := agg.risk_band
    recommendation := agg.recommendation
    conditions := agg.conditions
    dimension_results := dimension_results
    agents_succeeded := succeeded
    agents_failed := failed }

/-! ## Credit bureau simulator (`services/credit_bureau.py`)

`random.Random(seed)` is a deterministic pure function of its seed; the
model replaces the Mersenne Twister stream by a deterministic linear
congruential stand-in, and the SHA-256 seed derivation by a deterministic
string hash — the determinism and time-dependence facts proved about
`pull_credit_report` depend only on the generator being a pure function of
the application id, not on the values drawn.  `datetime.now()` becomes an
explicit `today : ℤ` day number, and `strftime("%Y-%m-%d")` keeps exactly
the day, so every generated date is modelled as a day number.  Monetary
rounding `round(x, 2)` is modelled as round-half-up at two decimals, and a
probability comparison `rng.random() < num/den` is evaluated on the integer
numerators (`randLt`), which is equivalent to the rational comparison.
Alert descriptions and score-factor strings keep their fixed template text
with interpolated numbers elided. -/

/-- Deterministic stand-in for the seeded Mersenne Twister state. -/
def rngNext (s : Nat) : Nat :=
  (6364136223846793005 * s + 1442695040888963407) % 2 ^ 64

/-- The pseudo-random generator: a pure state, advanced one draw at a time. -/
structure Rng where
  state : Nat
  deriving Repr, DecidableEq

/-- Advance the generator one draw. -/
def Rng.step (r : Rng) : Nat × Rng :=
  let s := rngNext r.state
  (s, ⟨s⟩)

/-- `rng.randint(lo, hi)` (both bounds inclusive). -/
def Rng.randint (r : Rng) (lo hi : ℤ) : ℤ × Rng :=
  let (v, r') := r.step
  (lo + ((v % (hi + 1 - lo).toNat : ℕ) : ℤ), r')

/-- The 53-bit numerator of `rng.random()`. -/
def Rng.step53 (r : Rng) : Nat × Rng :=
  let (v, r') := r.step
  (v % 2 ^ 53, r')

/-- `rng.random() < num/den`, evaluated on integer numerators. -/
def randLt (x num den : Nat) : Bool :=
  decide (x * den < num * 2 ^ 53)

/-- `rng.uniform(lo, hi)`. -/
def Rng.uniform (r : Rng) (lo hi : ℚ) : ℚ × Rng :=
  let (x, r') := r.step53
  (lo + (hi - lo) * ((x : ℚ) / 2 ^ 53), r')

/-- `rng.choice(l)` on the non-empty literal lists the service draws from. -/
def Rng.choice (r : Rng) (l : List String) : String × Rng :=
  let (v, r') := r.step
  (l.getD (v % l.length) "", r')

/-- Deterministic stand-in for
`int(hashlib.sha256(application_id.encode()).hexdigest()[:16], 16)`. -/
def seedOf (application_id : String) : Nat :=
  application_id.toList.foldl (fun a c => (a * 131 + c.toNat) % 2 ^ 64) 7

/-- `CreditBureauService._seeded_rng`. -/
def seeded_rng (application_id : String) : Rng := ⟨seedOf application_id⟩

/-- Python `int(q)` (truncation toward zero). -/
def pyInt (q : ℚ) : ℤ := q.num / (q.den : ℤ)

/-- `round(x, 2)` (half-up stand-in for float rounding). -/
def round2 (x : ℚ) : ℚ := (⌊x * 100 + 1/2⌋ : ℤ) / 100

/-- `round(x, 1)` (half-up stand-in). -/
def round1 (x : ℚ) : ℚ := (⌊x * 10 + 1/2⌋ : ℤ) / 10

/-- `round(x)` (half-up stand-in). -/
def pyRound (x : ℚ) : ℤ := ⌊x + 1/2⌋

/-- `Tradeline` (dates as day numbers). -/
structure TradelineB where
  account_type : String
  creditor : String
  opened_date : ℤ
  credit_limit : Option ℚ := none
  current_balance : ℚ := 0
  monthly_payment : ℚ := 0
  status : String := "open"
  payment_history_24m : List String := []

/-- `PublicRecord`. -/
structure PublicRecordB where
  record_type : String
  filed_date : ℤ
  status : String
  amount : Option ℤ := none

/-- `Inquiry`. -/
structure InquiryB where
  date : ℤ
  creditor : String
  inquiry_type : String

/-- A collections entry. -/
structure CollectionB where
  agency : String
  original_creditor : String
  amount : ℤ
  status : String
  reported_date : ℤ

/-- `FraudAlert` (the description keeps its template text). -/
structure FraudAlertB where
  alert_type : String
  severity : String
  description : String

/-- `CreditReportData`. -/
structure CreditReportDataB where
  credit_score : ℤ
  score_model : String := "FICO 8"
  score_factors : List String := []
  tradelines : List TradelineB := []
  public_records : List PublicRecordB := []
  inquiries : List InquiryB := []
  collections : List CollectionB := []
  fraud_alerts : List FraudAlertB := []
  fraud_score : ℤ := 0
  total_accounts : ℕ := 0
  open_accounts : ℕ := 0
  credit_utilization : ℚ := 0
  oldest_account_months : ℤ := 0
  avg_account_age_months : ℤ := 0
  on_time_payments_pct : ℚ := 100
  late_payments_30d : ℕ := 0
  late_payments_60d : ℕ := 0
  late_payments_90d : ℕ := 0

/-- `CREDITOR_NAMES`. -/
def creditorNames (t : String) : List String :=
  if t == "revolving" then ["Chase", "Capital One", "Discover", "Citi", "Amex"]
  else if t == "installment" then ["Toyota Financial", "Ford Motor Credit", "Ally Financial"]
  else if t == "student_loan" then ["Nelnet", "Great Lakes", "FedLoan"]
  else if t == "mortgage" then ["Wells Fargo", "Quicken Loans", "US Bank"]
  else []

/-- `CREDITOR_NAMES.get(acct_type, ["Generic Lender"])`. -/
def creditorNamesOr (t : String) : List String :=
  if (creditorNames t).isEmpty then ["Generic Lender"] else creditorNames t

/-- `CreditBureauService._derive_credit_score`. -/
def derive_credit_score (self_reported : Option ℚ) (decl : Declarations)
    (rng : Rng) : ℤ × Rng :=
  let (base_score, rng) :=
    match self_reported with
    | some s =>
      if 0 < s then
        let (variance, rng) := rng.randint (-30) 15
        (pyInt s + variance, rng)
      else rng.randint 580 720
    | none => rng.randint 580 720
  let (base_score, rng) :=
    if decl.has_bankruptcy then
      let (p, rng) := rng.randint 40 80
      (base_score - p, rng)
    else (base_score, rng)
  let (base_score, rng) :=
    if decl.has_foreclosure then
      let (p, rng) := rng.randint 50 90
      (base_score - p, rng)
    else (base_score, rng)
  let (base_score, rng) :=
    if decl.has_judgments then
      let (p, rng) := rng.randint 20 40
      (base_score - p, rng)
    else (base_score, rng)
  let (base_score, rng) :=
    if decl.has_delinquent_debt then
      let (p, rng) := rng.randint 15 35
      (base_score - p, rng)
    else (base_score, rng)
  (max 300 (min 850 base_score), rng)

/-- The per-month late probability of `_generate_payment_history`, as an
integer numerator/denominator pair. -/
def lateProb (credit_score : ℤ) : ℕ × ℕ :=
  if 760 ≤ credit_score then (5, 1000)
  else if 700 ≤ credit_score then (2, 100)
  else if 660 ≤ credit_score then (6, 100)
  else if 620 ≤ credit_score then (12, 100)
  else (20, 100)

/-- One month of `_generate_payment_history`. -/
def gen_payment_month (credit_score : ℤ) (rng : Rng) : String × Rng :=
  let (x, rng) := rng.step53
  if randLt x (lateProb credit_score).1 (lateProb credit_score).2 then
    let (roll, rng) := rng.step53
    if randLt roll 6 10 then ("30", rng)
    else if randLt roll 85 100 then ("60", rng)
    else ("90", rng)
  else ("OK", rng)

/-- `_generate_payment_history` over a month count. -/
def generate_payment_history (credit_score : ℤ) : ℕ → Rng → List String × Rng
  | 0, rng => ([], rng)
  | n + 1, rng =>
    let (p, rng) := gen_payment_month credit_score rng
    let (rest, rng) := generate_payment_history credit_score n rng
    (p :: rest, rng)

/-- The `debt_mapping` dict of `_generate_tradelines` (title-casing of an
unknown key is elided). -/
def debt_mapping (k : String) : String × String :=
  if k == "car_loan" then ("installment", "Auto Loan")
  else if k == "auto_loan" then ("installment", "Auto Loan")
  else if k == "student_loans" then ("student_loan", "Student Loan")
  else if k == "student_loan" then ("student_loan", "Student Loan")
  else if k == "credit_cards" then ("revolving", "Credit Card")
  else if k == "credit_card" then ("revolving", "Credit Card")
  else if k == "personal_loan" then ("installment", "Personal Loan")
  else if k == "other" then ("installment", "Other Installment")
  else ("installment", k)

/-- One credit-card tradeline of the revolving fan-out. -/
def gen_revolving_card (label : String) (per_card_payment : ℚ)
    (credit_score : ℤ) (today : ℤ) (i : ℕ) (rng : Rng) : TradelineB × Rng :=
  let (creditor, rng) := rng.choice (creditorNames "revolving")
  let (months_old, rng) := rng.randint 12 120
  let opened := today - months_old * 30
  let (util_pct, rng) :=
    if 740 ≤ credit_score then rng.uniform (5/100) (25/100)
    else if 670 ≤ credit_score then rng.uniform (15/100) (45/100)
    else rng.uniform (40/100) (85/100)
  let (m, rng) := rng.uniform 8 20
  let balance := round2 (per_card_payment * m)
  let limit := if 0 < util_pct then round2 (balance / util_pct) else balance * 4
  let (hist, rng) := generate_payment_history credit_score 24 rng
  ({ account_type := "revolving"
     creditor := creditor ++ " " ++ label ++ " #" ++ toString (i + 1)
     opened_date := opened
     credit_limit := some (round2 limit)
     current_balance := round2 balance
     monthly_payment := round2 per_card_payment
     status := "open"
     payment_history_24m := hist }, rng)

/-- The revolving fan-out loop (`for i in range(num_cards)`). -/
def gen_cards (label : String) (per_card_payment : ℚ) (credit_score : ℤ)
    (today : ℤ) : ℕ → ℕ → Rng → List TradelineB × Rng
  | 0, _, rng => ([], rng)
  | n + 1, i, rng =>
    let (c, rng) := gen_revolving_card label per_card_payment credit_score today i rng
    let (rest, rng) := gen_cards label per_card_payment credit_score today n (i + 1) rng
    (c :: rest, rng)

/-- The tradelines generated for one declared monthly debt. -/
def gen_tradelines_for_debt (debt_key : String) (payment_amount : ℚ)
    (credit_score : ℤ) (today : ℤ) (rng : Rng) : List TradelineB × Rng :=
  if payment_amount ≤ 0 then ([], rng)
  else
    let tl := debt_mapping debt_key
    if tl.1 == "revolving" then
      let (num_cards, rng) := rng.randint 1 3
      let per_card_payment := payment_amount / (num_cards : ℚ)
      gen_cards tl.2 per_card_payment credit_score today num_cards.toNat 0 rng
    else
      let (creditor, rng) := rng.choice (creditorNamesOr tl.1)
      let (months_old, rng) := rng.randint 6 72
      let opened := today - months_old * 30
      let (original_term, rng) := rng.randint 36 120
      let remaining_months := max 1 (original_term - months_old)
      let balance := round2 (payment_amount * (remaining_months : ℚ) * (9/10))
      let (hist, rng) := generate_payment_history credit_score
        (min 24 months_old).toNat rng
      ([{ account_type := tl.1
          creditor := creditor ++ " " ++ tl.2
          opened_date := opened
          credit_limit := none
          current_balance := balance
          monthly_payment := round2 payment_amount
          status := "open"
          payment_history_24m := hist }], rng)

/-- The declared-debt loop of `_generate_tradelines`. -/
def gen_debt_tradelines (credit_score : ℤ) (today : ℤ) :
    List (String × ℚ) → Rng → List TradelineB × Rng
  | [], rng => ([], rng)
  | (k, v) :: rest, rng =>
    let (ts, rng) := gen_tradelines_for_debt k v credit_score today rng
    let (ts', rng) := gen_debt_tradelines credit_score today rest rng
    (ts ++ ts', rng)

/-- One synthesized closed account of the ensure-at-least-3 loop. -/
def gen_filler (credit_score : ℤ) (today : ℤ) (rng : Rng) : TradelineB × Rng :=
  let (acct_type, rng) := rng.choice ["revolving", "installment"]
  let (creditor, rng) := rng.choice (creditorNamesOr acct_type)
  let (months_old, rng) := rng.randint 24 96
  let opened := today - months_old * 30
  if acct_type == "revolving" then
    let (u, rng) := rng.uniform 1000 15000
    let limit := round2 u
    let (um, rng) := rng.uniform 0 (3/10)
    let balance := round2 (limit * um)
    let payment := round2 (balance * (3/100))
    let (hist, rng) := generate_payment_history credit_score 24 rng
    ({ account_type := acct_type
       creditor := creditor ++ " (Closed)"
       opened_date := opened
       credit_limit := some limit
       current_balance := balance
       monthly_payment := payment
       status := "closed"
       payment_history_24m := hist }, rng)
  else
    let (p, rng) := rng.uniform 100 500
    let payment := round2 p
    let (k, rng) := rng.randint 12 48
    let balance := round2 (payment * (k : ℚ))
    let (hist, rng) := generate_payment_history credit_score 24 rng
    ({ account_type := acct_type
       creditor := creditor ++ " (Closed)"
       opened_date := opened
       credit_limit := none
       current_balance := balance
       monthly_payment := payment
       status := "closed"
       payment_history_24m := hist }, rng)

/-- The `while len(tradelines) < 3` loop, appending one filler per turn. -/
def gen_fillers (credit_score : ℤ) (today : ℤ) : ℕ → Rng → List TradelineB × Rng
  | 0, rng => ([], rng)
  | n + 1, rng =>
    let (t, rng) := gen_filler credit_score today rng
    let (rest, rng) := gen_fillers credit_score today n rng
    (t :: rest, rng)

/-- `CreditBureauService._generate_tradelines`. -/
def generate_tradelines (financial_info : FinancialInfo) (credit_score : ℤ)
    (today : ℤ) (rng : Rng) : List TradelineB × Rng :=
  let (ts, rng) := gen_debt_tradelines credit_score today
    financial_info.monthly_debts rng
  let (fill, rng) := gen_fillers credit_score today (3 - ts.length) rng
  (ts ++ fill, rng)

/-- `CreditBureauService._generate_public_records`. -/
def generate_public_records (decl : Declarations) (today : ℤ) (rng : Rng) :
    List PublicRecordB × Rng :=
  let (rs, rng) :=
    if decl.has_bankruptcy then
      let (years_ago, rng) := rng.randint 2 8
      let (amt, rng) := rng.randint 20000 150000
      ([{ record_type := "bankruptcy"
          filed_date := today - years_ago * 365
          status := if 2 ≤ years_ago then "discharged" else "active"
          amount := some amt : PublicRecordB }], rng)
    else ([], rng)
  let (rs2, rng) :=
    if decl.has_foreclosure then
      let (years_ago, rng) := rng.randint 3 10
      let (amt, rng) := rng.randint 100000 400000
      ([{ record_type := "foreclosure"
          filed_date := today - years_ago * 365
          status := "completed"
          amount := some amt : PublicRecordB }], rng)
    else ([], rng)
  let (rs3, rng) :=
    if decl.has_judgments then
      let (years_ago, rng) := rng.randint 1 6
      let (st, rng) := rng.choice ["satisfied", "active"]
      let (amt, rng) := rng.randint 2000 50000
      ([{ record_type := "judgment"
          filed_date := today - years_ago * 365
          status := st
          amount := some amt : PublicRecordB }], rng)
    else ([], rng)
  (rs ++ rs2 ++ rs3, rng)

/-- The non-mortgage inquiry loop of `_generate_inquiries`. -/
def gen_other_inquiries (today : ℤ) : ℕ → Rng → List InquiryB × Rng
  | 0, rng => ([], rng)
  | n + 1, rng =>
    let (days_ago, rng) := rng.randint 7 180
    let (creditor, rng) := rng.choice
      ["Auto Dealer", "Bank of America", "Discover", "SoFi", "Marcus"]
    let (itype, rng) := rng.choice ["auto", "credit_card", "other"]
    let (rest, rng) := gen_other_inquiries today n rng
    ({ date := today - days_ago, creditor := creditor, inquiry_type := itype }
      :: rest, rng)

/-- `CreditBureauService._generate_inquiries`. -/
def generate_inquiries (today : ℤ) (rng : Rng) : List InquiryB × Rng :=
  let (num, rng) := rng.randint 1 4
  let (days_ago, rng) := rng.randint 1 14
  let mortgage : InquiryB :=
    { date := today - days_ago, creditor := "Mortgage Lender",
      inquiry_type := "mortgage" }
  let (others, rng) := gen_other_inquiries today (num - 1).toNat rng
  (mortgage :: others, rng)

/-- One collections account. -/
def gen_collection (today : ℤ) (rng : Rng) : CollectionB × Rng :=
  let (agency, rng) := rng.choice
    ["IC System", "Midland Credit", "Portfolio Recovery", "LVNV Funding"]
  let (orig, rng) := rng.choice ["Medical Center", "Utility Co", "Telecom"]
  let (amt, rng) := rng.randint 200 5000
  let (st, rng) := rng.choice ["open", "paid", "settled"]
  let (days_ago, rng) := rng.randint 90 720
  ({ agency := agency, original_creditor := orig, amount := amt, status := st,
     reported_date := today - days_ago }, rng)

/-- The collections loop. -/
def gen_collections_loop (today : ℤ) : ℕ → Rng → List CollectionB × Rng
  | 0, rng => ([], rng)
  | n + 1, rng =>
    let (c, rng) := gen_collection today rng
    let (rest, rng) := gen_collections_loop today n rng
    (c :: rest, rng)

/-- `CreditBureauService._generate_collections`. -/
def generate_collections (decl : Declarations) (credit_score : ℤ) (today : ℤ)
    (rng : Rng) : List CollectionB × Rng :=
  if decl.has_delinquent_debt || decide (credit_score < 580) then
    let (num, rng) := rng.randint 1 3
    gen_collections_loop today num.toNat rng
  else ([], rng)

/-- `CreditBureauService._assess_fraud` (alert descriptions keep their
template text). -/
def assess_fraud (financial_info : FinancialInfo)
    (employment_info : EmploymentInfo) (_decl : Declarations)
    (credit_score : ℤ) (rng : Rng) : (List FraudAlertB × ℤ) × Rng :=
  let annual_income := employment_info.annual_income.getD 0
  let years_at_job := employment_info.years_at_job.getD 0
  let incomeFlag := 200000 < annual_income ∧ years_at_job < 2
  let alerts : List FraudAlertB :=
    if incomeFlag then
      [{ alert_type := "income_plausibility", severity := "medium",
         description := "High income with short tenure warrants verification" }]
    else []
  let fraud_score : ℤ := if incomeFlag then 15 else 0
  let missing_fields : ℕ :=
    (if pyFalsy financial_info.credit_score then 1 else 0) +
    (if pyFalsy financial_info.total_assets then 1 else 0) +
    (if pyFalsy employment_info.annual_income then 1 else 0)
  let alerts :=
    if 2 ≤ missing_fields then
      alerts ++ [{ alert_type := "data_completeness", severity := "low",
                   description := "Key financial fields are missing or zero" }]
    else alerts
  let fraud_score := if 2 ≤ missing_fields then fraud_score + 10 else fraud_score
  let (simulated_recent_pulls, rng) := rng.randint 0 5
  let alerts :=
    if 3 < simulated_recent_pulls then
      alerts ++ [{ alert_type := "velocity_check", severity := "high",
                   description := "Hard credit pulls in last 6 months" }]
    else alerts
  let fraud_score :=
    if 3 < simulated_recent_pulls then fraud_score + 20 else fraud_score
  let (idroll, rng) := rng.step53
  let idFlag := randLt idroll 3 100
  let alerts :=
    if idFlag then
      alerts ++ [{ alert_type := "identity_flag", severity := "high",
                   description := "SSN associated with multiple identities in bureau records" }]
    else alerts
  let fraud_score := if idFlag then fraud_score + 30 else fraud_score
  let self_reported :=
    match financial_info.credit_score_self_reported with
    | some s => some s
    | none => financial_info.credit_score
  let discrepancy :=
    match self_reported with
    | some s => if s == 0 then false else decide (50 < (pyInt s - credit_score).natAbs)
    | none => false
  let alerts :=
    if discrepancy then
      alerts ++ [{ alert_type := "score_discrepancy", severity := "medium",
                   description := "Self-reported score differs from bureau score" }]
    else alerts
  let fraud_score := if discrepancy then fraud_score + 10 else fraud_score
  let (noise, rng) := rng.randint 0 8
  let fraud_score := max 0 (min 100 (fraud_score + noise))
  ((alerts, fraud_score), rng)

/-- `CreditBureauService._generate_score_factors` (template texts, numbers
elided). -/
def generate_score_factors (credit_score : ℤ) (utilization : ℚ)
    (on_time_pct : ℚ) (oldest_months : ℤ)
    (public_records : List PublicRecordB) (_total_lates : ℕ) : List String :=
  let f1 :=
    if 99 ≤ on_time_pct then "Excellent payment history with near-perfect on-time rate"
    else if 95 ≤ on_time_pct then "Good payment history"
    else "Payment history shows late payment(s)"
  let f2 :=
    if utilization ≤ 10 then "Very low credit utilization"
    else if utilization ≤ 30 then "Good credit utilization"
    else if utilization ≤ 50 then "Moderate credit utilization — below 30% preferred"
    else "High credit utilization — significant negative factor"
  let years := (oldest_months : ℚ) / 12
  let f3 :=
    if 10 ≤ years then "Long credit history"
    else if 5 ≤ years then "Moderate credit history length"
    else "Short credit history — limited track record"
  let f4 :=
    if public_records.isEmpty then "No derogatory public records found"
    else "Public records present"
  let f5 :=
    if 740 ≤ credit_score then "Score in super-prime tier (740+)"
    else if 670 ≤ credit_score then "Score in prime tier (670-739)"
    else if 580 ≤ credit_score then "Score in near-prime tier (580-669)"
    else "Score in sub-prime tier (below 580)"
  [f1, f2, f3, f4, f5]

/-- `CreditBureauService.pull_credit_report`, with the wall-clock date an
explicit `today` day number. -/
def pull_credit_report (today : ℤ) (application_id : String)
    (financial_info : FinancialInfo) (employment_info : EmploymentInfo)
    (declarations : Declarations) (_property_info : PropertyInfo) :
    CreditReportDataB :=
  let rng := seeded_rng application_id
  let self_reported :=
    match financial_info.credit_score_self_reported with
    | some s => some s
    | none => financial_info.credit_score
  let (bureau_score, rng) := derive_credit_score self_reported declarations rng
  let (tradelines, rng) := generate_tradelines financial_info bureau_score today rng
  let (public_records, rng) := generate_public_records declarations today rng
  let (inquiries, rng) := generate_inquiries today rng
  let (collections, rng) := generate_collections declarations bureau_score today rng
  let total_accounts := tradelines.length
  let open_accounts := (tradelines.filter (fun t => t.status == "open")).length
  let total_limit := ((tradelines.filter (fun t => t.account_type == "revolving")).map
    (fun t => t.credit_limit.getD 0)).sum
  let total_balance := ((tradelines.filter (fun t => t.account_type == "revolving")).map
    (fun t => t.current_balance)).sum
  let credit_utilization :=
    if 0 < total_limit then round1 (total_balance / total_limit * 100) else 0
  let account_ages := tradelines.map (fun t => max 1 ((today - t.opened_date) / 30))
  let oldest_account_months := account_ages.foldr max 0
  let avg_account_age_months :=
    if account_ages.isEmpty then 0
    else pyRound ((account_ages.map (fun a => (a : ℚ))).sum / (account_ages.length : ℚ))
  let payments := tradelines.flatMap (fun t => t.payment_history_24m)
  let total_payments := payments.length
  let on_time := (payments.filter (fun p => p == "OK")).length
  let late_30 := (payments.filter (fun p => p == "30")).length
  let late_60 := (payments.filter (fun p => p == "60")).length
  let late_90 := (payments.filter (fun p => p == "90" || p == "CO")).length
  let on_time_pct :=
    if 0 < total_payments then round1 ((on_time : ℚ) / (total_payments : ℚ) * 100)
    else 100
  let (fa, _rng) := assess_fraud financial_info employment_info declarations
    bureau_score rng
  let score_factors := generate_score_factors bureau_score credit_utilization
    on_time_pct oldest_account_months public_records (late_30 + late_60 + late_90)
  { credit_score := bureau_score
    score_model := "FICO 8"
    score_factors := score_factors
    tradelines := tradelines
    public_records := public_records
    inquiries := inquiries
    collections := collections
    fraud_alerts := fa.1
    fraud_score := fa.2
    total_accounts := total_accounts
    open_accounts := open_accounts
    credit_utilization := credit_utilization
    oldest_account_months := oldest_account_months
    avg_account_age_months := avg_account_age_months
    on_time_payments_pct := on_time_pct
    late_payments_30d := late_30
    late_payments_60d := late_60
    late_payments_90d := late_90 }

/-! ## Concrete instances used by counterexamples and witnesses -/

/-- An application with a negative (non-missing) DTI ratio, a one-month term
and a high loan-to-income ratio. -/
def negDtiApp : ApplicationData :=
  { dti_ratio := some (-1)
    loan_amount := some 100000
    employment_info := { annual_income := some 60000 }
    base_interest_rate := some 10
    loan_term_months := some 1 }

/-- An application that fails the reserve check (no liquid assets) but skips
the stress test (DTI missing). -/
def reserveDeficitApp : ApplicationData :=
  { loan_amount := some 100000
    base_interest_rate := some 12
    loan_term_months := some 1 }

/-- One succeeded compensating-factors dimension at score 70. -/
def comp70Results : List AgentResult :=
  [{ dimension_name := "compensating_factors", agent_name := "comp", score := 70,
     weight := 1 }]

/-- An AI aggregation outcome with overall score 70 in the medium band. -/
def medBandParsed : AggOutcome :=
  { overall_score := 70, risk_band := "medium", recommendation := "review" }

/-- An application that fails the stress test (one-month term, large loan
against modest income) with a present DTI. -/
def stressFailApp : ApplicationData :=
  { dti_ratio := some 40
    loan_amount := some 100000
    employment_info := { annual_income := some 60000 }
    base_interest_rate := some 10
    loan_term_months := some 1 }

/-- An AI aggregation outcome with overall score 82 in the low band. -/
def lowBandParsed : AggOutcome :=
  { overall_score := 82, risk_band := "low", recommendation := "review" }

/-- A strong application with no loan amount on file: every rule scorer takes
a cheap path and the fraud-risk dimension scores 70 (no bureau data). -/
def strongApp : ApplicationData :=
  { financial_info := { credit_score := some 760 }
    employment_info :=
      { annual_income := some 150000
        years_at_job := some 10
        employment_status := some "employed"
        employer_name := some "Acme"
        job_title := some "Engineer"
        previous_employer := some "Beta" }
    property_info :=
      { purchase_price := some 100000
        property_type := some "single_family"
        usage_type := some "primary_residence" }
    down_payment := some 50000
    dti_ratio := some 20 }

/-- Dimension results whose weighted average is exactly 85 while the
fraud-risk dimension scores 60. -/
def fraud85Results : List AgentResult :=
  [{ dimension_name := "fraud_risk", agent_name := "fraud", score := 60,
     weight := 1/20 },
   { dimension_name := "credit_profile", agent_name := "credit", score := 1640/19,
     weight := 19/20 }]

/-- A single succeeded fraud-risk dimension result at score 60. -/
def fraud60Results : List AgentResult :=
  [{ dimension_name := "fraud_risk", agent_name := "fraud", score := 60,
     weight := 1/20 }]

/-- Three dimension results, one failed, for the weighted-average witness. -/
def mixedResults : List AgentResult :=
  [{ dimension_name := "a", agent_name := "a", score := 80, weight := 1/2 },
   { dimension_name := "b", agent_name := "b", score := 60, weight := 1/4 },
   { dimension_name := "c", agent_name := "c", score := 10, weight := 1/4,
     error := some "boom" }]

/-- Three agents: one parses, one fails inside `analyze`, one crashes. -/
def threeAgents : List (AgentSpec × AgentRun) :=
  [({ dimension_name := "alpha", agent_name := "alpha_agent", weight := 1/4 },
    AgentRun.ok { score := some 80 }),
   ({ dimension_name := "beta", agent_name := "beta_agent", weight := 1/4 },
    AgentRun.llmError "timeout"),
   ({ dimension_name := "gamma", agent_name := "gamma_agent", weight := 1/4 },
    AgentRun.crashed "boom")]

/-- An application with a 50% down payment and no other compensating data. -/
def halfDownApp : ApplicationData :=
  { down_payment := some 50000
    property_info := { purchase_price := some 100000 } }

/-- The bureau report for a fixed application id and fixed (all-empty)
self-reported inputs, as a function of the day `pull_credit_report` runs. -/
def c3Report (today : ℤ) : CreditReportDataB :=
  pull_credit_report today "app-1" {} {} {} {}

/-! ## Helper lemmas -/

theorem dimScoreLookup_eq_of_mem {results : List AgentResult} {name : String}
    (dflt : ℚ) {r : AgentResult} (hmem : r ∈ results) (hs : r.succeeded = true)
    (hn : r.dimension_name = name)
    (hnodup : (results.map AgentResult.dimension_name).Nodup) :
    dimScoreLookup results name dflt = r.score := by
  induction results with
  | nil => simp at hmem
  | cons x xs ih =>
    simp only [List.map_cons, List.nodup_cons] at hnodup
    rcases List.mem_cons.mp hmem with hx | hxs
    · subst hx
      have hfilter : xs.filter (fun y => y.succeeded && y.dimension_name == name) = [] := by
        rw [List.filter_eq_nil_iff]
        intro y hy
        simp only [Bool.and_eq_true, beq_iff_eq, not_and]
        intro _ hyn
        exact hnodup.1 (hn ▸ hyn ▸ List.mem_map_of_mem AgentResult.dimension_name hy)
      have hrpos : (r.succeeded && r.dimension_name == name) = true := by
        simp [hs, hn]
      unfold dimScoreLookup
      simp only [List.filter_cons, hrpos, if_true, hfilter]
      rfl
    · have hxname : (x.succeeded && x.dimension_name == name) = false := by
        rw [Bool.and_eq_false_iff]
        by_cases hxsucc : x.succeeded = true
        · refine Or.inr ?_
          rw [beq_eq_false_iff_ne]
          intro hxn
          exact hnodup.1 (hxn ▸ hn ▸ List.mem_map_of_mem AgentResult.dimension_name hxs)
        · exact Or.inl (Bool.not_eq_true _ ▸ hxsucc)
      unfold dimScoreLookup
      simp only [List.filter_cons, hxname, Bool.false_eq_true, if_false]
      exact ih hxs hnodup.2

theorem apply_intelligent_overrides_recommendation (parsed : AggOutcome)
    (results : List AgentResult) (data : ApplicationData) :
    (apply_intelligent_overrides parsed results data).recommendation =
      (if 60 ≤ dimScoreLookup results "fraud_risk" 0 then "deny"
       else if 80 ≤ parsed.overall_score then
         if check_stress_test data then "conditional_approve" else "approve"
       else if 60 ≤ parsed.overall_score then
         if 70 ≤ dimScoreLookup results "compensating_factors" 50 &&
             detect_recovery_trajectory results then "conditional_approve"
         else if check_stress_test data || check_reserve_deficit data then "deny"
         else "review"
       else if 40 ≤ parsed.overall_score then
         if 75 ≤ dimScoreLookup results "compensating_factors" 50 then "review"
         else "deny"
       else "deny") := by
  simp only [apply_intelligent_overrides]
  split_ifs <;> rfl

theorem apply_intelligent_overrides_band (parsed : AggOutcome)
    (results : List AgentResult) (data : ApplicationData) :
    (apply_intelligent_overrides parsed results data).risk_band = parsed.risk_band := by
  simp only [apply_intelligent_overrides]
  split_ifs <;> rfl

theorem apply_intelligent_overrides_overall (parsed : AggOutcome)
    (results : List AgentResult) (data : ApplicationData) :
    (apply_intelligent_overrides parsed results data).overall_score =
      parsed.overall_score := by
  simp only [apply_intelligent_overrides]
  split_ifs <;> rfl

theorem rule_based_aggregation_overall (results : List AgentResult)
    (data : ApplicationData) :
    (rule_based_aggregation results data).overall_score =
      (if 0 < ((results.filter (fun r => r.succeeded)).map (fun r => r.weight)).sum then
        ((results.filter (fun r => r.succeeded)).map (fun r => r.weighted_score)).sum /
          ((results.filter (fun r => r.succeeded)).map (fun r => r.weight)).sum
       else 50) := by
  simp only [rule_based_aggregation]

theorem rule_based_aggregation_recommendation (results : List AgentResult)
    (data : ApplicationData) :
    (rule_based_aggregation results data).recommendation =
      (if 60 ≤ dimScoreLookup results "fraud_risk" 0 then "deny"
       else if 80 ≤ (rule_based_aggregation results data).overall_score then
         if check_stress_test data then "conditional_approve" else "approve"
       else if 60 ≤ (rule_based_aggregation results data).overall_score then
         if 70 ≤ dimScoreLookup results "compensating_factors" 50 then "conditional_approve"
         else if check_stress_test data then "deny"
         else "review"
       else if 40 ≤ (rule_based_aggregation results data).overall_score then
         if 75 ≤ dimScoreLookup results "compensating_factors" 50 then "review"
         else "deny"
       else "deny") := by
  rw [rule_based_aggregation_overall]
  simp only [rule_based_aggregation]
  split_ifs <;> rfl

theorem rule_based_aggregation_band (results : List AgentResult)
    (data : ApplicationData) :
    (rule_based_aggregation results data).risk_band =
      (if 60 ≤ dimScoreLookup results "fraud_risk" 0 then "critical"
       else bandFromScore (rule_based_aggregation results data).overall_score) := by
  rw [rule_based_aggregation_overall]
  simp only [rule_based_aggregation, bandFromScore]
  split_ifs <;> rfl

theorem pipeline_fallback_aggregation_overall (results : List AgentResult) :
    (pipeline_fallback_aggregation results).overall_score =
      (if 0 < ((results.filter (fun r => r.succeeded)).map (fun r => r.weight)).sum then
        ((results.filter (fun r => r.succeeded)).map (fun r => r.weighted_score)).sum /
          ((results.filter (fun r => r.succeeded)).map (fun r => r.weight)).sum
       else 50) := by
  simp only [pipeline_fallback_aggregation]

theorem pipeline_fallback_aggregation_band (results : List AgentResult) :
    (pipeline_fallback_aggregation results).risk_band =
      bandFromScore (pipeline_fallback_aggregation results).overall_score := by
  rw [pipeline_fallback_aggregation_overall]
  simp only [pipeline_fallback_aggregation, bandFromScore]
  split_ifs <;> rfl

theorem pipeline_fallback_aggregation_recommendation (results : List AgentResult) :
    (pipeline_fallback_aggregation results).recommendation =
      (if 80 ≤ (pipeline_fallback_aggregation results).overall_score then "approve"
       else if 60 ≤ (pipeline_fallback_aggregation results).overall_score then "review"
       else if 40 ≤ (pipeline_fallback_aggregation results).overall_score then "review"
       else "deny") := by
  rw [pipeline_fallback_aggregation_overall]
  simp only [pipeline_fallback_aggregation]
  split_ifs <;> rfl

theorem length_insertByName (x : AgentResult) (l : List AgentResult) :
    (insertByName x l).length = l.length + 1 := by
  induction l with
  | nil => rfl
  | cons y ys ih =>
    unfold insertByName
    split_ifs <;> simp [ih]

theorem countP_insertByName (p : AgentResult → Bool) (x : AgentResult)
    (l : List AgentResult) :
    (insertByName x l).countP p = (x :: l).countP p := by
  induction l with
  | nil => rfl
  | cons y ys ih =>
    unfold insertByName
    split_ifs with h
    · rfl
    · simp only [List.countP_cons, ih, List.countP_cons]
      omega

theorem mem_insertByName {y x : AgentResult} {l : List AgentResult} :
    y ∈ insertByName x l ↔ y = x ∨ y ∈ l := by
  induction l with
  | nil => simp [insertByName]
  | cons z zs ih =>
    unfold insertByName
    split_ifs with h
    · simp [List.mem_cons]
    · simp only [List.mem_cons, ih]
      tauto

theorem length_sortByName (l : List AgentResult) :
    (sortByName l).length = l.length := by
  induction l with
  | nil => rfl
  | cons x xs ih => simp [sortByName, length_insertByName, ih]

theorem countP_sortByName (p : AgentResult → Bool) (l : List AgentResult) :
    (sortByName l).countP p = l.countP p := by
  induction l with
  | nil => rfl
  | cons x xs ih =>
    simp [sortByName, countP_insertByName, List.countP_cons, ih]

theorem mem_sortByName {y : AgentResult} {l : List AgentResult} :
    y ∈ sortByName l ↔ y ∈ l := by
  induction l with
  | nil => simp [sortByName]
  | cons x xs ih =>
    simp [sortByName, mem_insertByName, ih]

theorem collectAgent_succeeded (a : AgentSpec × AgentRun) :
    (collectAgent a).succeeded = !a.2.raised := by
  rcases a with ⟨spec, out | e | e⟩ <;>
    simp [collectAgent, analyze, parse_result, AgentResult.succeeded, AgentRun.raised]

theorem collectAgent_failed (a : AgentSpec × AgentRun) (h : a.2.raised = true) :
    (collectAgent a).score = 50 ∧ (collectAgent a).error.isSome = true := by
  rcases a with ⟨spec, out | e | e⟩ <;>
    simp_all [collectAgent, analyze, AgentRun.raised]

theorem clamp_bounds (x : ℚ) : 0 ≤ max 0 (min 100 x) ∧ max 0 (min 100 x) ≤ 100 := by
  constructor
  · exact le_max_left 0 _
  · exact max_le (by norm_num) (min_le_left 100 x)

theorem sum_bounds_of_forall (l : List AgentResult)
    (h : ∀ r ∈ l, 0 ≤ r.score ∧ r.score ≤ 100 ∧ 0 ≤ r.weight) :
    0 ≤ (l.map (fun r => r.weighted_score)).sum ∧
    (l.map (fun r => r.weighted_score)).sum ≤ 100 * (l.map (fun r => r.weight)).sum ∧
    0 ≤ (l.map (fun r => r.weight)).sum := by
  induction l with
  | nil => simp
  | cons x xs ih =>
    obtain ⟨hx, hxs⟩ := List.forall_mem_cons.mp h
    obtain ⟨ih1, ih2, ih3⟩ := ih hxs
    obtain ⟨hs0, hs100, hw0⟩ := hx
    simp only [List.map_cons, List.sum_cons, AgentResult.weighted_score] at ih1 ih2 ⊢
    refine ⟨?_, ?_, ?_⟩
    · nlinarith
    · nlinarith
    · linarith

theorem weighted_avg_bounds (results : List AgentResult)
    (h : ∀ r ∈ results, 0 ≤ r.score ∧ r.score ≤ 100 ∧ 0 ≤ r.weight) :
    0 ≤ (if 0 < ((results.filter (fun r => r.succeeded)).map (fun r => r.weight)).sum then
          ((results.filter (fun r => r.succeeded)).map (fun r => r.weighted_score)).sum /
            ((results.filter (fun r => r.succeeded)).map (fun r => r.weight)).sum
         else 50) ∧
    (if 0 < ((results.filter (fun r => r.succeeded)).map (fun r => r.weight)).sum then
          ((results.filter (fun r => r.succeeded)).map (fun r => r.weighted_score)).sum /
            ((results.filter (fun r => r.succeeded)).map (fun r => r.weight)).sum
         else 50) ≤ 100 := by
  have hf : ∀ r ∈ results.filter (fun r => r.succeeded),
      0 ≤ r.score ∧ r.score ≤ 100 ∧ 0 ≤ r.weight := by
    intro r hr
    exact h r (List.mem_filter.mp hr).1
  obtain ⟨h1, h2, _⟩ := sum_bounds_of_forall _ hf
  split_ifs with hpos
  · constructor
    · exact div_nonneg h1 (le_of_lt hpos)
    · rw [div_le_iff₀ hpos]
      linarith
  · norm_num

theorem check_stress_test_of_falsy (data : ApplicationData)
    (h : (pyFalsy data.dti_ratio || pyFalsy data.loan_amount) = true) :
    check_stress_test data = false := by
  unfold check_stress_test
  rw [if_pos h]

theorem check_stress_test_of_income_nonpos (data : ApplicationData)
    (h : data.employment_info.annual_income.getD 0 ≤ 0) :
    check_stress_test data = false := by
  unfold check_stress_test
  split
  · rfl
  · dsimp only
    rw [if_pos h]

theorem check_reserve_deficit_of_falsy (data : ApplicationData)
    (h : (pyFalsy data.loan_amount = true) ∨ (pyFalsy data.base_interest_rate = true)) :
    check_reserve_deficit data = false := by
  unfold check_reserve_deficit
  dsimp only
  rw [if_neg]
  rcases h with h | h <;> simp [h]

/-! ## Claim theorems -/

/-- C10 (amended): the stress-test check returns false whenever the DTI
ratio or the loan amount is missing **or zero** (Python truthiness — a
negative value passes the guard), or the annual income is non-positive; the
reserve-deficit check returns false whenever the loan amount or the base
interest rate is missing or zero; hence when both checks are false the
overrides cannot fire: a score of at least 80 yields "approve" and a score
in the 60-79 band never yields "deny" (absent a fraud override). -/
theorem C10_incomplete_data_disables_overrides :
    (∀ data : ApplicationData,
      pyFalsy data.dti_ratio = true ∨ pyFalsy data.loan_amount = true ∨
        data.employment_info.annual_income.getD 0 ≤ 0 →
      check_stress_test data = false) ∧
    (∀ data : ApplicationData,
      pyFalsy data.loan_amount = true ∨ pyFalsy data.base_interest_rate = true →
      check_reserve_deficit data = false) ∧
    (∀ (data : ApplicationData) (parsed : AggOutcome) (results : List AgentResult),
      check_stress_test data = false → check_reserve_deficit data = false →
      dimScoreLookup results "fraud_risk" 0 < 60 →
      (80 ≤ parsed.overall_score →
        (apply_intelligent_overrides parsed results data).recommendation = "approve") ∧
      (60 ≤ parsed.overall_score → parsed.overall_score < 80 →
        (apply_intelligent_overrides parsed results data).recommendation ≠ "deny")) := by
  refine ⟨?_, ?_, ?_⟩
  · intro data h
    rcases h with h | h | h
    · exact check_stress_test_of_falsy data (by simp [h])
    · exact check_stress_test_of_falsy data (by simp [h])
    · exact check_stress_test_of_income_nonpos data h
  · intro data h
    exact check_reserve_deficit_of_falsy data h
  · intro data parsed results hstress hreserve hfraud
    rw [apply_intelligent_overrides_recommendation, if_neg (not_le.mpr hfraud)] at *
    constructor
    · intro h80
      rw [if_pos h80, hstress, if_neg (by simp)]
    · intro h60 h80
      rw [if_neg (not_le.mpr h80), if_pos h60]
      split_ifs <;> simp_all

/-- C10 counterexample: a present but **negative** DTI ratio is truthy in
Python, so the stress test runs and returns true, contradicting the claim
that a non-positive DTI makes it return false. -/
theorem C10_counterexample :
    negDtiApp.dti_ratio = some (-1) ∧ check_stress_test negDtiApp = true := by
  constructor
  · rfl
  · norm_num [check_stress_test, pyFalsy, pyOr, pyOrInt, negDtiApp, beq_iff_eq]

/-- C10 witness: the amended theorem applied to concrete applications. -/
theorem C10_witness :
    check_stress_test { dti_ratio := none } = false ∧
    check_reserve_deficit { loan_amount := none } = false ∧
    (apply_intelligent_overrides lowBandParsed [] { }).recommendation = "approve" := by
  refine ⟨?_, ?_, ?_⟩
  · exact C10_incomplete_data_disables_overrides.1 _ (Or.inl (by simp [pyFalsy]))
  · exact C10_incomplete_data_disables_overrides.2.1 _ (Or.inl (by simp [pyFalsy]))
  · refine (C10_incomplete_data_disables_overrides.2.2 { } lowBandParsed []
      ?_ ?_ ?_).1 ?_
    · exact check_stress_test_of_falsy _ (by simp [pyFalsy])
    · exact check_reserve_deficit_of_falsy _ (Or.inl (by simp [pyFalsy]))
    · simp [dimScoreLookup]
    · norm_num [lowBandParsed]

/-- C6: whenever the stress test fails (stressed DTI above 50% under the 20%
income haircut and +2 point rate shock of the amortization formula embedded
in `check_stress_test`), the fraud dimension is below 60, and the overall
score is at least 80, the intelligent-override layer returns
"conditional_approve" and adds the rate-lock/income-verification and escrow
conditions. -/
theorem C6_stress_gating (data : ApplicationData) (parsed : AggOutcome)
    (results : List AgentResult)
    (hstress : check_stress_test data = true)
    (hfraud : dimScoreLookup results "fraud_risk" 0 < 60)
    (hscore : 80 ≤ parsed.overall_score) :
    (apply_intelligent_overrides parsed results data).recommendation =
      "conditional_approve" ∧
    "Rate lock and income verification required before closing" ∈
      (apply_intelligent_overrides parsed results data).conditions ∧
    "Escrow account required" ∈
      (apply_intelligent_overrides parsed results data).conditions := by
  have hrec := apply_intelligent_overrides_recommendation parsed results data
  rw [if_neg (not_le.mpr hfraud), if_pos hscore, hstress, if_pos rfl] at hrec
  refine ⟨hrec, ?_, ?_⟩ <;>
  · unfold apply_intelligent_overrides
    rw [if_neg (not_le.mpr hfraud), if_pos hscore, hstress]
    simp

/-- C6 witness: a concrete application with a one-month term whose stressed
DTI is 2525%, scored 82 by the aggregation, is conditionally approved with
both conditions. -/
theorem C6_witness :
    check_stress_test stressFailApp = true ∧
    dimScoreLookup [] "fraud_risk" 0 < 60 ∧
    (80 : ℚ) ≤ lowBandParsed.overall_score ∧
    (apply_intelligent_overrides lowBandParsed [] stressFailApp).recommendation =
      "conditional_approve" := by
  have h1 : check_stress_test stressFailApp = true := by
    norm_num [check_stress_test, pyFalsy, pyOr, pyOrInt, stressFailApp, beq_iff_eq]
  have h2 : dimScoreLookup [] "fraud_risk" 0 < 60 := by
    simp [dimScoreLookup]
  have h3 : (80 : ℚ) ≤ lowBandParsed.overall_score := by norm_num [lowBandParsed]
  exact ⟨h1, h2, h3, (C6_stress_gating stressFailApp lowBandParsed [] h1 h2 h3).1⟩

/-- C4: on both fallback aggregation paths, if every weight is positive and
some dimension succeeded, the overall score is exactly the weighted average
of the succeeded dimensions (sum of score x weight over sum of weight); if
none succeeded it is 50. -/
theorem C4_fallback_weighted_average (results : List AgentResult)
    (data : ApplicationData)
    (hw : ∀ r ∈ results, 0 < r.weight) :
    ((∃ r ∈ results, r.succeeded = true) →
      (rule_based_aggregation results data).overall_score =
        ((results.filter (fun r => r.succeeded)).map (fun r => r.score * r.weight)).sum /
          ((results.filter (fun r => r.succeeded)).map (fun r => r.weight)).sum ∧
      (pipeline_fallback_aggregation results).overall_score =
        ((results.filter (fun r => r.succeeded)).map (fun r => r.score * r.weight)).sum /
          ((results.filter (fun r => r.succeeded)).map (fun r => r.weight)).sum) ∧
    ((∀ r ∈ results, r.succeeded = false) →
      (rule_based_aggregation results data).overall_score = 50 ∧
      (pipeline_fallback_aggregation results).overall_score = 50) := by
  constructor
  · rintro ⟨r, hmem, hs⟩
    have hrf : r ∈ results.filter (fun r => r.succeeded) :=
      List.mem_filter.mpr ⟨hmem, hs⟩
    have hpos : 0 < ((results.filter (fun r => r.succeeded)).map (fun r => r.weight)).sum := by
      apply List.sum_pos
      · intro x hx
        obtain ⟨y, hy, hyx⟩ := List.mem_map.mp hx
        exact hyx ▸ hw y (List.mem_filter.mp hy).1
      · intro hnil
        rw [List.map_eq_nil_iff] at hnil
        rw [hnil] at hrf
        exact absurd hrf (List.not_mem_nil r)
    have hws : ((results.filter (fun r => r.succeeded)).map (fun r => r.weighted_score)).sum =
        ((results.filter (fun r => r.succeeded)).map (fun r => r.score * r.weight)).sum := by
      simp [AgentResult.weighted_score]
    rw [rule_based_aggregation_overall, pipeline_fallback_aggregation_overall,
      if_pos hpos, hws]
    exact ⟨rfl, rfl⟩
  · intro hall
    have hnil : results.filter (fun r => r.succeeded) = [] := by
      rw [List.filter_eq_nil_iff]
      intro a ha
      simp [hall a ha]
    rw [rule_based_aggregation_overall, pipeline_fallback_aggregation_overall, hnil]
    norm_num

/-- C4 witness: three concrete dimensions, one failed, give an overall score
of (80/2 + 60/4) / (3/4) = 220/3 on both fallback paths. -/
theorem C4_witness :
    (∀ r ∈ mixedResults, 0 < r.weight) ∧
    (rule_based_aggregation mixedResults { }).overall_score = 220/3 ∧
    (pipeline_fallback_aggregation mixedResults).overall_score = 220/3 := by
  have hw : ∀ r ∈ mixedResults, 0 < r.weight := by
    intro r hr
    simp only [mixedResults, List.mem_cons, List.not_mem_nil, or_false] at hr
    rcases hr with h | h | h <;> subst h <;> norm_num
  have hex : ∃ r ∈ mixedResults, r.succeeded = true :=
    ⟨_, List.mem_cons_self _ _, rfl⟩
  obtain ⟨h1, h2⟩ := (C4_fallback_weighted_average mixedResults { } hw).1 hex
  refine ⟨hw, ?_, ?_⟩
  · rw [h1]
    norm_num [mixedResults, AgentResult.succeeded]
  · rw [h2]
    norm_num [mixedResults, AgentResult.succeeded]

theorem insertByName_perm (x : AgentResult) (l : List AgentResult) :
    (insertByName x l).Perm (x :: l) := by
  induction l with
  | nil => exact List.Perm.refl _
  | cons y ys ih =>
    unfold insertByName
    split_ifs
    · exact List.Perm.refl _
    · exact (List.Perm.cons y ih).trans (List.Perm.swap x y ys)

theorem sortByName_perm (l : List AgentResult) : (sortByName l).Perm l := by
  induction l with
  | nil => exact List.Perm.refl _
  | cons x xs ih =>
    exact (insertByName_perm x (sortByName xs)).trans (List.Perm.cons x ih)

theorem pipeline_fallback_aggregation_overall_sorted (l : List AgentResult) :
    (pipeline_fallback_aggregation (sortByName l)).overall_score =
      (pipeline_fallback_aggregation l).overall_score := by
  rw [pipeline_fallback_aggregation_overall, pipeline_fallback_aggregation_overall]
  have hp := (sortByName_perm l).filter (fun r => r.succeeded)
  rw [(hp.map (fun r => r.weighted_score)).sum_eq, (hp.map (fun r => r.weight)).sum_eq]

set_option maxHeartbeats 1000000 in
theorem strongApp_overall :
    (pipeline_fallback_aggregation (ruleDimensionResults strongApp)).overall_score
      = 3977/50 := by
  have hplE : pyLower "employed" = "employed" := by decide
  have hplJ : pyLower "Engineer" = "engineer" := by decide
  have hkw : (commissionKeywords.any fun kw => strContains (pyLower "Engineer") kw) = false := by
    decide
  have hkw2 : (commissionKeywords.any fun kw => strContains "engineer" kw) = false := by
    decide
  have hs1 : ¬("Acme" = "") := by decide
  have hs2 : ¬("Engineer" = "") := by decide
  have hs3 : ¬("Beta" = "") := by decide
  have h0 : (score_credit_profile strongApp none).score = 97 := by
    norm_num [score_credit_profile, credit_profile_score_input, credit_profile_base,
      credit_profile_after_derog, credit_profile_income_adjusted, strongApp, pyFalsy,
      pyOr, min_def, max_def, beq_iff_eq]
  have h1 : (score_credit_history_depth strongApp none).score = 50 := by
    norm_num [score_credit_history_depth, strongApp, pyFalsy, pyOr, min_def, max_def, beq_iff_eq]
  have h2 : (score_payment_history strongApp none).score = 50 := by
    norm_num [score_payment_history, strongApp, pyFalsy, pyOr, min_def, max_def, beq_iff_eq]
  have h3 : (score_income_stability strongApp none).score = 85 := by
    norm_num [score_income_stability, income_stability_status, income_stability_tenure,
      income_stability_ratio, strongApp, pyFalsy, pyOr, pyTruthyStr, hplE, hplJ,
      hkw, hkw2, hs1, hs2, hs3, min_def, max_def]
  have h4 : (score_earning_potential strongApp none).score = 80 := by
    norm_num [score_earning_potential, strongApp, pyFalsy, pyOr, pyTruthyStr, hplE, hplJ,
      hkw, hkw2, hs1, hs2, hs3, min_def, max_def]
  have h5 : (score_debt_to_income strongApp none).score = 95 := by
    norm_num [score_debt_to_income, strongApp, pyFalsy, pyOr, min_def, max_def, beq_iff_eq]
  have h6 : (score_down_payment strongApp none).score = 95 := by
    norm_num [score_down_payment, strongApp, pyFalsy, pyOr, min_def, max_def, beq_iff_eq]
  have h7 : (score_employment_history strongApp none).score = 95 := by
    norm_num [score_employment_history, strongApp, pyFalsy, pyOr, pyTruthyStr, hplE, hplJ,
      hkw, hkw2, hs1, hs2, hs3, min_def, max_def]
  have h8 : (score_property_assessment strongApp none).score = 100 := by
    norm_num [score_property_assessment, strongApp, pyFalsy, pyOr, pyTruthyStr, hplE, hplJ,
      hkw, hkw2, hs1, hs2, hs3, min_def, max_def]
  have h9 : (score_fraud_risk strongApp none).score = 70 := by
    norm_num [score_fraud_risk, strongApp, pyFalsy, pyOr, min_def, max_def, beq_iff_eq]
  have h10 : (score_compensating_factors strongApp none).score = 71 := by
    norm_num [score_compensating_factors, strongApp, pyFalsy, pyOr, min_def, max_def, beq_iff_eq]
  have w0 : weightOf "credit_profile" = 12/100 := by simp [weightOf, DIMENSION_WEIGHTS, List.lookup]
  have w1 : weightOf "credit_history_depth" = 10/100 := by simp [weightOf, DIMENSION_WEIGHTS, List.lookup]
  have w2 : weightOf "payment_history" = 12/100 := by simp [weightOf, DIMENSION_WEIGHTS, List.lookup]
  have w3 : weightOf "income_stability" = 12/100 := by simp [weightOf, DIMENSION_WEIGHTS, List.lookup]
  have w4 : weightOf "earning_potential" = 8/100 := by simp [weightOf, DIMENSION_WEIGHTS, List.lookup]
  have w5 : weightOf "debt_to_income" = 13/100 := by simp [weightOf, DIMENSION_WEIGHTS, List.lookup]
  have w6 : weightOf "down_payment" = 8/100 := by simp [weightOf, DIMENSION_WEIGHTS, List.lookup]
  have w7 : weightOf "employment_history" = 5/100 := by simp [weightOf, DIMENSION_WEIGHTS, List.lookup]
  have w8 : weightOf "property_assessment" = 5/100 := by simp [weightOf, DIMENSION_WEIGHTS, List.lookup]
  have w9 : weightOf "fraud_risk" = 5/100 := by simp [weightOf, DIMENSION_WEIGHTS, List.lookup]
  have w10 : weightOf "compensating_factors" = 10/100 := by simp [weightOf, DIMENSION_WEIGHTS, List.lookup]
  rw [pipeline_fallback_aggregation_overall]
  norm_num [ruleDimensionResults, DIMENSION_SCORERS,
    AgentResult.succeeded, AgentResult.weighted_score,
    h0, h1, h2, h3, h4, h5, h6, h7, h8, h9, h10,
    w0, w1, w2, w3, w4, w5, w6, w7, w8, w9, w10]

/-- C1 (amended): in the primary AI path (`aggregate` on a successful LLM
call, i.e. `apply_intelligent_overrides`) and in the rule-based fallback
aggregation, a succeeded fraud_risk dimension scoring at least 60 forces the
recommendation "deny"; the non-AI pipeline path derives its recommendation
from the weighted-average band alone and applies no fraud override. -/
theorem C1_fraud_override (results : List AgentResult) (data : ApplicationData)
    (parsed : AggOutcome) (r : AgentResult)
    (hmem : r ∈ results) (hs : r.succeeded = true)
    (hname : r.dimension_name = "fraud_risk") (hscore : 60 ≤ r.score)
    (hnodup : (results.map AgentResult.dimension_name).Nodup) :
    (apply_intelligent_overrides parsed results data).recommendation = "deny" ∧
    (rule_based_aggregation results data).recommendation = "deny" ∧
    ∀ llm : Option RawAggregation,
      (aggregate data results llm).recommendation = "deny" := by
  have hf : dimScoreLookup results "fraud_risk" 0 = r.score :=
    dimScoreLookup_eq_of_mem 0 hmem hs hname hnodup
  have hge : 60 ≤ dimScoreLookup results "fraud_risk" 0 := hf ▸ hscore
  have h1 : ∀ p : AggOutcome,
      (apply_intelligent_overrides p results data).recommendation = "deny" := by
    intro p
    rw [apply_intelligent_overrides_recommendation, if_pos hge]
  have h2 : (rule_based_aggregation results data).recommendation = "deny" := by
    rw [rule_based_aggregation_recommendation, if_pos hge]
  refine ⟨h1 parsed, h2, ?_⟩
  intro llm
  cases llm with
  | some raw => exact h1 (validate_aggregation raw)
  | none => exact h2

/-- C1 witness: a single succeeded fraud_risk result at score 60 makes both
aggregation layers deny. -/
theorem C1_fraud_override_witness :
    (apply_intelligent_overrides medBandParsed fraud60Results { }).recommendation =
      "deny" ∧
    (rule_based_aggregation fraud60Results { }).recommendation = "deny" := by
  have h := C1_fraud_override fraud60Results { } medBandParsed
    { dimension_name := "fraud_risk", agent_name := "fraud", score := 60,
      weight := 1/20 }
    (by simp [fraud60Results]) rfl rfl (by norm_num) (by simp [fraud60Results])
  exact ⟨h.1, h.2.1⟩

/-- C1 counterexample: on the non-AI pipeline path the application
`strongApp` produces a succeeded fraud_risk dimension scoring 70 (at least
60), yet the pipeline recommendation is "review", not "deny". -/
theorem C1_counterexample :
    (∃ r ∈ (run_pipeline strongApp [] false none).dimension_results,
       r.succeeded = true ∧ r.dimension_name = "fraud_risk" ∧ 60 ≤ r.score) ∧
    (run_pipeline strongApp [] false none).recommendation = "review" := by
  have hdim : (run_pipeline strongApp [] false none).dimension_results =
      sortByName (ruleDimensionResults strongApp) := rfl
  have hrec : (run_pipeline strongApp [] false none).recommendation =
      (pipeline_fallback_aggregation
        (sortByName (ruleDimensionResults strongApp))).recommendation := rfl
  constructor
  · rw [hdim]
    have hfs : (score_fraud_risk strongApp none).score = 70 := by
      norm_num [score_fraud_risk, strongApp]
    have hmem :
        ({ dimension_name := "fraud_risk"
           agent_name := "rule_engine"
           score := (score_fraud_risk strongApp none).score
           weight := weightOf "fraud_risk"
           positive_factors := (score_fraud_risk strongApp none).positive_factors
           risk_factors := (score_fraud_risk strongApp none).risk_factors
           mitigating_factors := (score_fraud_risk strongApp none).mitigating_factors
           explanation := (score_fraud_risk strongApp none).explanation
           error := none } : AgentResult) ∈ ruleDimensionResults strongApp := by
      unfold ruleDimensionResults
      apply List.mem_map.mpr
      refine ⟨("fraud_risk", score_fraud_risk), ?_, rfl⟩
      unfold DIMENSION_SCORERS
      repeat first | exact List.mem_cons_self _ _ | apply List.mem_cons_of_mem
    refine ⟨_, mem_sortByName.mpr hmem, rfl, rfl, ?_⟩
    rw [hfs]
    norm_num
  · rw [hrec, pipeline_fallback_aggregation_recommendation,
      pipeline_fallback_aggregation_overall_sorted, strongApp_overall]
    norm_num

/-- C2 (amended): the fallback aggregation agrees with the
intelligent-override layer on the recommendation, given the same overall
score, whenever the fraud override fires or the score is outside the 60-79
band; inside the 60-79 band the two disagree (the fallback omits the
recovery-trajectory requirement and the reserve-deficit check), and the
attached condition strings differ between the two paths throughout. -/
theorem C2_partial_equivalence (parsed : AggOutcome) (results : List AgentResult)
    (data : ApplicationData)
    (hsame : parsed.overall_score = (rule_based_aggregation results data).overall_score)
    (hrange : 60 ≤ dimScoreLookup results "fraud_risk" 0 ∨
      parsed.overall_score < 60 ∨ 80 ≤ parsed.overall_score) :
    (apply_intelligent_overrides parsed results data).recommendation =
      (rule_based_aggregation results data).recommendation := by
  rw [apply_intelligent_overrides_recommendation, rule_based_aggregation_recommendation,
    ← hsame]
  rcases hrange with hf | hlt | hge
  · rw [if_pos hf, if_pos hf]
  · by_cases hf : 60 ≤ dimScoreLookup results "fraud_risk" 0
    · rw [if_pos hf, if_pos hf]
    · rw [if_neg hf, if_neg hf, if_neg (by linarith : ¬(80 : ℚ) ≤ parsed.overall_score),
        if_neg (by linarith : ¬(80 : ℚ) ≤ parsed.overall_score),
        if_neg (by linarith : ¬(60 : ℚ) ≤ parsed.overall_score),
        if_neg (by linarith : ¬(60 : ℚ) ≤ parsed.overall_score)]
  · by_cases hf : 60 ≤ dimScoreLookup results "fraud_risk" 0
    · rw [if_pos hf, if_pos hf]
    · rw [if_neg hf, if_neg hf, if_pos hge, if_pos hge]

/-- C2 witness: with a single compensating-factors dimension at 70, no
recovery language and no reserve shortfall, both layers give the same
recommendation when the score is out of the medium band. -/
theorem C2_partial_equivalence_witness :
    lowBandParsed.overall_score =
      (rule_based_aggregation fraud60Results { }).overall_score + 22 ∧
    (apply_intelligent_overrides
        { lowBandParsed with overall_score := 60/1 * 1 } fraud60Results
        { }).recommendation =
      (rule_based_aggregation fraud60Results { }).recommendation := by
  constructor
  · rw [rule_based_aggregation_overall]
    norm_num [fraud60Results, AgentResult.succeeded, AgentResult.weighted_score,
      lowBandParsed]
  · have hov : ({ lowBandParsed with overall_score := 60/1 * 1 }).overall_score =
        (rule_based_aggregation fraud60Results { }).overall_score := by
      rw [rule_based_aggregation_overall]
      norm_num [fraud60Results, AgentResult.succeeded, AgentResult.weighted_score,
        lowBandParsed]
    apply C2_partial_equivalence _ _ _ hov
    left
    have : dimScoreLookup fraud60Results "fraud_risk" 0 = 60 := by
      simp [dimScoreLookup, fraud60Results, AgentResult.succeeded]
    rw [this]

/-- C2 counterexample: with the same inputs (overall score 70,
compensating-factors 70, no recovery language, reserve deficit present,
stress test passing), the intelligent-override layer denies while the
rule-based fallback conditionally approves. -/
theorem C2_counterexample :
    medBandParsed.overall_score =
      (rule_based_aggregation comp70Results reserveDeficitApp).overall_score ∧
    (apply_intelligent_overrides medBandParsed comp70Results
        reserveDeficitApp).recommendation = "deny" ∧
    (rule_based_aggregation comp70Results reserveDeficitApp).recommendation =
      "conditional_approve" := by
  have hov : (rule_based_aggregation comp70Results reserveDeficitApp).overall_score = 70 := by
    rw [rule_based_aggregation_overall]
    norm_num [comp70Results, AgentResult.succeeded, AgentResult.weighted_score]
  have hfraud : dimScoreLookup comp70Results "fraud_risk" 0 = 0 := by
    simp [dimScoreLookup, comp70Results, AgentResult.succeeded]
  have hcomp : dimScoreLookup comp70Results "compensating_factors" 50 = 70 := by
    simp [dimScoreLookup, comp70Results, AgentResult.succeeded]
  have hstress : check_stress_test reserveDeficitApp = false :=
    check_stress_test_of_falsy _ (by simp [reserveDeficitApp, pyFalsy])
  have hreserve : check_reserve_deficit reserveDeficitApp = true := by
    norm_num [check_reserve_deficit, pyFalsy, pyOr, pyOrInt, reserveDeficitApp,
      beq_iff_eq]
  have hrecov : detect_recovery_trajectory comp70Results = false := by
    simp [detect_recovery_trajectory, comp70Results]
  refine ⟨by rw [hov]; norm_num [medBandParsed], ?_, ?_⟩
  · rw [apply_intelligent_overrides_recommendation, hfraud, hcomp, hstress, hreserve,
      hrecov]
    norm_num [medBandParsed]
  · rw [rule_based_aggregation_recommendation, hov, hfraud, hcomp]
    norm_num

theorem bandFromScore_mem (s : ℚ) : bandFromScore s ∈ validBands := by
  unfold bandFromScore validBands
  split_ifs <;> simp

theorem validate_aggregation_band_mem (raw : RawAggregation) :
    (validate_aggregation raw).risk_band ∈ validBands := by
  unfold validate_aggregation
  dsimp only
  cases raw.risk_band with
  | none => exact bandFromScore_mem _
  | some b =>
    dsimp only
    split_ifs with h
    · simpa [validBands] using h
    · exact bandFromScore_mem _

theorem apply_intelligent_overrides_rec_mem (parsed : AggOutcome)
    (results : List AgentResult) (data : ApplicationData) :
    (apply_intelligent_overrides parsed results data).recommendation ∈ validRecs := by
  rw [apply_intelligent_overrides_recommendation]
  unfold validRecs
  split_ifs <;> simp

theorem rule_based_aggregation_band_mem (results : List AgentResult)
    (data : ApplicationData) :
    (rule_based_aggregation results data).risk_band ∈ validBands := by
  rw [rule_based_aggregation_band]
  split_ifs
  · simp [validBands]
  · exact bandFromScore_mem _

theorem rule_based_aggregation_rec_mem (results : List AgentResult)
    (data : ApplicationData) :
    (rule_based_aggregation results data).recommendation ∈ validRecs := by
  rw [rule_based_aggregation_recommendation]
  unfold validRecs
  split_ifs <;> simp

theorem pipeline_fallback_aggregation_band_mem (results : List AgentResult) :
    (pipeline_fallback_aggregation results).risk_band ∈ validBands := by
  rw [pipeline_fallback_aggregation_band]
  exact bandFromScore_mem _

theorem pipeline_fallback_aggregation_rec_mem (results : List AgentResult) :
    (pipeline_fallback_aggregation results).recommendation ∈ validRecs := by
  rw [pipeline_fallback_aggregation_recommendation]
  unfold validRecs
  split_ifs <;> simp

theorem aggregate_band_mem (data : ApplicationData) (results : List AgentResult)
    (llm : Option RawAggregation) :
    (aggregate data results llm).risk_band ∈ validBands := by
  cases llm with
  | some raw =>
    show (apply_intelligent_overrides (validate_aggregation raw) results data).risk_band
      ∈ validBands
    rw [apply_intelligent_overrides_band]
    exact validate_aggregation_band_mem raw
  | none => exact rule_based_aggregation_band_mem results data

theorem aggregate_rec_mem (data : ApplicationData) (results : List AgentResult)
    (llm : Option RawAggregation) :
    (aggregate data results llm).recommendation ∈ validRecs := by
  cases llm with
  | some raw =>
    exact apply_intelligent_overrides_rec_mem (validate_aggregation raw) results data
  | none => exact rule_based_aggregation_rec_mem results data

set_option maxHeartbeats 1000000 in
/-- C5 (amended): every pipeline result carries a risk band from
{low, medium, high, critical} and a recommendation from
{approve, conditional_approve, review, deny}; on the score-derived paths an
overall score of 85 yields band "low" — except that the rule-based
fallback's fraud override sets band "critical" regardless of score, and the
AI path keeps any valid band the model returned. -/
theorem C5_bands_and_recommendations :
    (∀ (data : ApplicationData) (agents : List (AgentSpec × AgentRun))
        (use_llm : Bool) (llmAgg : Option RawAggregation),
      (run_pipeline data agents use_llm llmAgg).risk_band ∈ validBands ∧
      (run_pipeline data agents use_llm llmAgg).recommendation ∈ validRecs) ∧
    (∀ results : List AgentResult,
      (pipeline_fallback_aggregation results).overall_score = 85 →
      (pipeline_fallback_aggregation results).risk_band = "low") ∧
    (∀ (results : List AgentResult) (data : ApplicationData),
      dimScoreLookup results "fraud_risk" 0 < 60 →
      (rule_based_aggregation results data).overall_score = 85 →
      (rule_based_aggregation results data).risk_band = "low") := by
  refine ⟨?_, ?_, ?_⟩
  · intro data agents use_llm llmAgg
    cases use_llm with
    | true =>
      exact ⟨aggregate_band_mem data _ llmAgg, aggregate_rec_mem data _ llmAgg⟩
    | false =>
      exact ⟨pipeline_fallback_aggregation_band_mem _,
        pipeline_fallback_aggregation_rec_mem _⟩
  · intro results h85
    rw [pipeline_fallback_aggregation_band, h85]
    norm_num [bandFromScore]
  · intro results data hfraud h85
    rw [rule_based_aggregation_band, if_neg (not_le.mpr hfraud), h85]
    norm_num [bandFromScore]

/-- C5 counterexample: on the rule-based fallback, dimension results whose
weighted average is exactly 85 but whose fraud_risk dimension scores 60
yield risk band "critical". -/
theorem C5_counterexample :
    (rule_based_aggregation fraud85Results { }).overall_score = 85 ∧
    (rule_based_aggregation fraud85Results { }).risk_band = "critical" := by
  have hov : (rule_based_aggregation fraud85Results { }).overall_score = 85 := by
    rw [rule_based_aggregation_overall]
    norm_num [fraud85Results, AgentResult.succeeded, AgentResult.weighted_score]
  have hfraud : dimScoreLookup fraud85Results "fraud_risk" 0 = 60 := by
    simp [dimScoreLookup, fraud85Results, AgentResult.succeeded]
  refine ⟨hov, ?_⟩
  rw [rule_based_aggregation_band, hfraud]
  norm_num

/-- C5 witness: the amended theorem at a concrete pipeline invocation and at
the concrete score-85 dimension set on the non-AI path. -/
theorem C5_witness :
    (run_pipeline { } [] true none).risk_band ∈ validBands ∧
    (run_pipeline { } [] true none).recommendation ∈ validRecs ∧
    (pipeline_fallback_aggregation fraud85Results).risk_band = "low" := by
  obtain ⟨hb, hr⟩ := C5_bands_and_recommendations.1 { } [] true none
  refine ⟨hb, hr, ?_⟩
  apply C5_bands_and_recommendations.2.1 fraud85Results
  rw [pipeline_fallback_aggregation_overall]
  norm_num [fraud85Results, AgentResult.succeeded, AgentResult.weighted_score]

/-- C7: running the pipeline's AI path over M agents of which N raise
exceptions still yields M dimension results; every failed result carries
score 50 and a non-null error, agents_failed is N and agents_succeeded is
M - N; the collection is total, so no exception escapes the agent-execution
phase. -/
theorem C7_partial_failure (agents : List (AgentSpec × AgentRun))
    (data : ApplicationData) (llmAgg : Option RawAggregation) :
    (run_pipeline data agents true llmAgg).dimension_results.length = agents.length ∧
    (run_pipeline data agents true llmAgg).agents_failed =
      agents.countP (fun a => a.2.raised) ∧
    (run_pipeline data agents true llmAgg).agents_succeeded =
      agents.length - agents.countP (fun a => a.2.raised) ∧
    ∀ r ∈ (run_pipeline data agents true llmAgg).dimension_results,
      r.succeeded = false → r.score = 50 ∧ r.error.isSome = true := by
  have hdim : (run_pipeline data agents true llmAgg).dimension_results =
      sortByName (agents.map collectAgent) := rfl
  have hfail : (run_pipeline data agents true llmAgg).agents_failed =
      (sortByName (agents.map collectAgent)).countP (fun r => !r.succeeded) := rfl
  have hsucc : (run_pipeline data agents true llmAgg).agents_succeeded =
      (sortByName (agents.map collectAgent)).countP (fun r => r.succeeded) := rfl
  have hcount : agents.countP ((fun r => !r.succeeded) ∘ collectAgent) =
      agents.countP (fun a => a.2.raised) := by
    apply List.countP_congr
    intro a _
    simp [Function.comp, collectAgent_succeeded]
  have hcount2 : agents.countP ((fun r => r.succeeded) ∘ collectAgent) =
      agents.countP (fun a => !a.2.raised) := by
    apply List.countP_congr
    intro a _
    simp [Function.comp, collectAgent_succeeded]
  refine ⟨?_, ?_, ?_, ?_⟩
  · rw [hdim, length_sortByName, List.length_map]
  · rw [hfail, countP_sortByName, List.countP_map, hcount]
  · rw [hsucc, countP_sortByName, List.countP_map, hcount2]
    have hlen := List.length_eq_countP_add_countP (fun a => a.2.raised) agents
    have hnn : agents.countP (fun a => !a.2.raised) =
        agents.countP (fun a => decide ¬(a.2.raised = true)) := by
      apply List.countP_congr
      intro a _
      cases h : a.2.raised <;> simp [h]
    omega
  · intro r hr hfailr
    rw [hdim, mem_sortByName] at hr
    obtain ⟨a, _, rfl⟩ := List.mem_map.mp hr
    have hraised : a.2.raised = true := by
      by_contra hn
      rw [Bool.not_eq_true] at hn
      have hsuc := collectAgent_succeeded a
      rw [hn] at hsuc
      simp at hsuc
      rw [hsuc] at hfailr
      exact Bool.true_eq_false ▸ hfailr ▸ rfl
    exact collectAgent_failed a hraised

/-- C7 witness: three agents of which two raise (one inside analyze, one at
collection) give 3 results, 2 failed, 1 succeeded, and the failed result
built from the analyze-level error carries score 50 and an error. -/
theorem C7_witness :
    (run_pipeline { } threeAgents true none).dimension_results.length = 3 ∧
    (run_pipeline { } threeAgents true none).agents_failed = 2 ∧
    (run_pipeline { } threeAgents true none).agents_succeeded = 1 ∧
    (collectAgent
      ({ dimension_name := "beta"
         agent_name := "beta_agent"
         weight := 1/4 }, AgentRun.llmError "timeout")).score = 50 := by
  obtain ⟨h1, h2, h3, h4⟩ := C7_partial_failure threeAgents { } none
  refine ⟨?_, ?_, ?_, ?_⟩
  · rw [h1]; rfl
  · rw [h2]; rfl
  · rw [h3]; rfl
  · have hb : (collectAgent
        ({ dimension_name := "beta"
           agent_name := "beta_agent"
           weight := 1/4 }, AgentRun.llmError "timeout")).succeeded = false := rfl
    refine (h4 _ ?_ hb).1
    rw [show (run_pipeline { } threeAgents true none).dimension_results =
      sortByName (threeAgents.map collectAgent) from rfl, mem_sortByName]
    apply List.mem_map.mpr
    refine ⟨({ dimension_name := "beta"
               agent_name := "beta_agent"
               weight := 1/4 }, AgentRun.llmError "timeout"), ?_, rfl⟩
    exact List.mem_cons_of_mem _ (List.mem_cons_self _ _)

/-- C9 (amended): without bureau data the rule-based fraud scorer returns
exactly 70 with an explicit no-bureau flag; the compensating-factors scorer
has no such branch — it ignores bureau data except for the
recovery-trajectory bonus, carries no flag, and returns 50 only when no
other adjustment applies (as on the empty application). -/
theorem C9_no_bureau_defaults :
    (∀ app : ApplicationData,
      (score_fraud_risk app none).score = 70 ∧
      "No fraud indicators without bureau data" ∈
        (score_fraud_risk app none).positive_factors) ∧
    (score_compensating_factors { } none).score = 50 ∧
    (score_compensating_factors { } none).risk_factors = [] ∧
    (score_compensating_factors { } none).positive_factors = [] := by
  refine ⟨fun app => ⟨rfl, by simp [score_fraud_risk]⟩, ?_, ?_, ?_⟩ <;>
    norm_num [score_compensating_factors, pyFalsy, pyOr, min_def, max_def, beq_iff_eq]

/-- C9 counterexample: with a 50% down payment and no bureau data, the
compensating-factors scorer returns 60, not the claimed 50. -/
theorem C9_counterexample :
    (score_compensating_factors halfDownApp none).score = 60 := by
  norm_num [score_compensating_factors, halfDownApp, pyFalsy, pyOr, min_def,
    max_def, beq_iff_eq]

theorem derog_step_bounds (s d : ℚ) (h95 : s ≤ 95) (hd : 0 ≤ d) :
    10 ≤ max (s - d) 10 ∧ max (s - d) 10 ≤ 95 :=
  ⟨le_max_right _ _, max_le (by linarith) (by norm_num)⟩

theorem credit_profile_base_bounds (c : ℚ) :
    25 ≤ (credit_profile_base c).score ∧ (credit_profile_base c).score ≤ 95 := by
  unfold credit_profile_base
  split_ifs <;> norm_num

theorem credit_profile_after_derog_bounds (decl : Declarations) (o : ScoreOutcome)
    (h10 : 10 ≤ o.score) (h95 : o.score ≤ 95) :
    10 ≤ (credit_profile_after_derog decl o).score ∧
      (credit_profile_after_derog decl o).score ≤ 95 := by
  unfold credit_profile_after_derog
  dsimp only
  split_ifs with hf hb hb
  · obtain ⟨a1, a2⟩ := derog_step_bounds o.score 20 h95 (by norm_num)
    exact derog_step_bounds _ 25 a2 (by norm_num)
  · exact derog_step_bounds o.score 25 h95 (by norm_num)
  · exact derog_step_bounds o.score 20 h95 (by norm_num)
  · exact ⟨h10, h95⟩

theorem credit_profile_income_adjusted_bounds (I c : ℚ) (o : ScoreOutcome)
    (h0 : 0 ≤ o.score) (h100 : o.score ≤ 100) :
    0 ≤ (credit_profile_income_adjusted I c o).score ∧
      (credit_profile_income_adjusted I c o).score ≤ 100 := by
  unfold credit_profile_income_adjusted
  split_ifs with h
  · dsimp only
    constructor
    · apply le_min (by norm_num)
      have hq : (0:ℚ) ≤ min 8 ((I - 100000) / 25000) :=
        le_min (by norm_num) (div_nonneg (by linarith [h.1]) (by norm_num))
      linarith
    · exact min_le_left _ _
  · exact ⟨h0, h100⟩

theorem score_credit_profile_bounds (app : ApplicationData)
    (crd : Option CreditReportDict) :
    0 ≤ (score_credit_profile app crd).score ∧
      (score_credit_profile app crd).score ≤ 100 := by
  obtain ⟨hb1, hb2⟩ := credit_profile_base_bounds (credit_profile_score_input app crd)
  obtain ⟨hd1, hd2⟩ := credit_profile_after_derog_bounds app.declarations
    (credit_profile_base (credit_profile_score_input app crd)) (by linarith) hb2
  have hfin := credit_profile_income_adjusted_bounds
    (app.employment_info.annual_income.getD 0) (credit_profile_score_input app crd)
    (credit_profile_after_derog app.declarations
      (credit_profile_base (credit_profile_score_input app crd)))
    (by linarith) (by linarith)
  unfold score_credit_profile
  dsimp only
  exact hfin

theorem score_credit_history_depth_bounds (app : ApplicationData)
    (crd : Option CreditReportDict) :
    0 ≤ (score_credit_history_depth app crd).score ∧
      (score_credit_history_depth app crd).score ≤ 100 := by
  cases crd with
  | none => norm_num [score_credit_history_depth]
  | some d =>
    simp only [score_credit_history_depth]
    exact clamp_bounds _

theorem score_payment_history_bounds (app : ApplicationData)
    (crd : Option CreditReportDict) :
    0 ≤ (score_payment_history app crd).score ∧
      (score_payment_history app crd).score ≤ 100 := by
  cases crd with
  | none => norm_num [score_payment_history]
  | some d =>
    simp only [score_payment_history]
    exact clamp_bounds _

theorem income_stability_status_score (s : String) (o : ScoreOutcome) :
    o.score ≤ (income_stability_status s o).score ∧
      (income_stability_status s o).score ≤ o.score + 15 := by
  unfold income_stability_status
  split_ifs <;> (try dsimp only) <;> constructor <;> linarith

theorem income_stability_tenure_score (y : ℚ) (o : ScoreOutcome) :
    o.score ≤ (income_stability_tenure y o).score ∧
      (income_stability_tenure y o).score ≤ o.score + 20 := by
  unfold income_stability_tenure
  split_ifs <;> (try dsimp only) <;> constructor <;> linarith

theorem income_stability_ratio_score (l : Option ℚ) (i : ℚ) (o : ScoreOutcome) :
    o.score ≤ (income_stability_ratio l i o).score ∧
      (income_stability_ratio l i o).score ≤ o.score + 15 := by
  unfold income_stability_ratio
  dsimp only
  split_ifs <;> (try dsimp only) <;> constructor <;> linarith

theorem score_income_stability_bounds (app : ApplicationData)
    (crd : Option CreditReportDict) :
    0 ≤ (score_income_stability app crd).score ∧
      (score_income_stability app crd).score ≤ 100 := by
  obtain ⟨a1, a2⟩ := income_stability_status_score
    (pyLower (app.employment_info.employment_status.getD "")) { score := 50 }
  obtain ⟨b1, b2⟩ := income_stability_tenure_score
    (app.employment_info.years_at_job.getD 0)
    (income_stability_status
      (pyLower (app.employment_info.employment_status.getD "")) { score := 50 })
  obtain ⟨c1, c2⟩ := income_stability_ratio_score app.loan_amount
    (app.employment_info.annual_income.getD 0)
    (income_stability_tenure (app.employment_info.years_at_job.getD 0)
      (income_stability_status
        (pyLower (app.employment_info.employment_status.getD "")) { score := 50 }))
  unfold score_income_stability
  dsimp only
  constructor
  · apply le_min _ (by norm_num)
    dsimp only at a1
    linarith
  · exact min_le_right _ _

theorem score_earning_potential_bounds (app : ApplicationData)
    (crd : Option CreditReportDict) :
    0 ≤ (score_earning_potential app crd).score ∧
      (score_earning_potential app crd).score ≤ 100 := by
  simp only [score_earning_potential]
  exact clamp_bounds _

theorem score_debt_to_income_bounds (app : ApplicationData)
    (crd : Option CreditReportDict) :
    0 ≤ (score_debt_to_income app crd).score ∧
      (score_debt_to_income app crd).score ≤ 100 := by
  unfold score_debt_to_income
  dsimp only
  split
  · split_ifs <;> norm_num
  · norm_num

theorem score_down_payment_bounds (app : ApplicationData)
    (crd : Option CreditReportDict) :
    0 ≤ (score_down_payment app crd).score ∧
      (score_down_payment app crd).score ≤ 100 := by
  unfold score_down_payment
  dsimp only
  split_ifs <;> norm_num

theorem score_employment_history_bounds (app : ApplicationData)
    (crd : Option CreditReportDict) :
    0 ≤ (score_employment_history app crd).score ∧
      (score_employment_history app crd).score ≤ 100 := by
  unfold score_employment_history
  dsimp only
  split_ifs <;> norm_num

theorem score_property_assessment_bounds (app : ApplicationData)
    (crd : Option CreditReportDict) :
    0 ≤ (score_property_assessment app crd).score ∧
      (score_property_assessment app crd).score ≤ 100 := by
  unfold score_property_assessment
  dsimp only
  split_ifs <;> norm_num

theorem score_fraud_risk_bounds (app : ApplicationData)
    (crd : Option CreditReportDict) :
    0 ≤ (score_fraud_risk app crd).score ∧
      (score_fraud_risk app crd).score ≤ 100 := by
  cases crd with
  | none => norm_num [score_fraud_risk]
  | some d =>
    simp only [score_fraud_risk]
    exact clamp_bounds _

theorem score_compensating_factors_bounds (app : ApplicationData)
    (crd : Option CreditReportDict) :
    0 ≤ (score_compensating_factors app crd).score ∧
      (score_compensating_factors app crd).score ≤ 100 := by
  simp only [score_compensating_factors]
  exact clamp_bounds _

theorem parse_result_bounds (spec : AgentSpec) (out : LlmOutput) :
    0 ≤ (parse_result spec out).score ∧ (parse_result spec out).score ≤ 100 := by
  simp only [parse_result]
  exact clamp_bounds _

theorem validate_aggregation_bounds (raw : RawAggregation) :
    0 ≤ (validate_aggregation raw).overall_score ∧
      (validate_aggregation raw).overall_score ≤ 100 := by
  simp only [validate_aggregation]
  exact clamp_bounds _

/-- C8: every rule-based dimension scorer, the LLM result parser, and the
aggregation layers keep scores inside [0, 100] on all inputs; the override
layer never changes the overall score, and the fallback weighted averages
stay in [0, 100] whenever the dimension results they average have in-range
scores and non-negative weights (as all results the pipeline constructs
do). -/
theorem C8_score_bounds :
    (∀ (app : ApplicationData) (crd : Option CreditReportDict),
      (0 ≤ (score_credit_profile app crd).score ∧
        (score_credit_profile app crd).score ≤ 100) ∧
      (0 ≤ (score_credit_history_depth app crd).score ∧
        (score_credit_history_depth app crd).score ≤ 100) ∧
      (0 ≤ (score_payment_history app crd).score ∧
        (score_payment_history app crd).score ≤ 100) ∧
      (0 ≤ (score_income_stability app crd).score ∧
        (score_income_stability app crd).score ≤ 100) ∧
      (0 ≤ (score_earning_potential app crd).score ∧
        (score_earning_potential app crd).score ≤ 100) ∧
      (0 ≤ (score_debt_to_income app crd).score ∧
        (score_debt_to_income app crd).score ≤ 100) ∧
      (0 ≤ (score_down_payment app crd).score ∧
        (score_down_payment app crd).score ≤ 100) ∧
      (0 ≤ (score_employment_history app crd).score ∧
        (score_employment_history app crd).score ≤ 100) ∧
      (0 ≤ (score_property_assessment app crd).score ∧
        (score_property_assessment app crd).score ≤ 100) ∧
      (0 ≤ (score_fraud_risk app crd).score ∧
        (score_fraud_risk app crd).score ≤ 100) ∧
      (0 ≤ (score_compensating_factors app crd).score ∧
        (score_compensating_factors app crd).score ≤ 100)) ∧
    (∀ (spec : AgentSpec) (out : LlmOutput),
      0 ≤ (parse_result spec out).score ∧ (parse_result spec out).score ≤ 100) ∧
    (∀ raw : RawAggregation,
      0 ≤ (validate_aggregation raw).overall_score ∧
        (validate_aggregation raw).overall_score ≤ 100) ∧
    (∀ (parsed : AggOutcome) (results : List AgentResult) (data : ApplicationData),
      (apply_intelligent_overrides parsed results data).overall_score =
        parsed.overall_score) ∧
    (∀ (results : List AgentResult) (data : ApplicationData),
      (∀ r ∈ results, 0 ≤ r.score ∧ r.score ≤ 100 ∧ 0 ≤ r.weight) →
      (0 ≤ (rule_based_aggregation results data).overall_score ∧
        (rule_based_aggregation results data).overall_score ≤ 100) ∧
      (0 ≤ (pipeline_fallback_aggregation results).overall_score ∧
        (pipeline_fallback_aggregation results).overall_score ≤ 100)) := by
  refine ⟨?_, parse_result_bounds, validate_aggregation_bounds,
    apply_intelligent_overrides_overall, ?_⟩
  · intro app crd
    exact ⟨score_credit_profile_bounds app crd,
      score_credit_history_depth_bounds app crd,
      score_payment_history_bounds app crd,
      score_income_stability_bounds app crd,
      score_earning_potential_bounds app crd,
      score_debt_to_income_bounds app crd,
      score_down_payment_bounds app crd,
      score_employment_history_bounds app crd,
      score_property_assessment_bounds app crd,
      score_fraud_risk_bounds app crd,
      score_compensating_factors_bounds app crd⟩
  · intro results data h
    have hb := weighted_avg_bounds results h
    constructor
    · rw [rule_based_aggregation_overall]
      exact hb
    · rw [pipeline_fallback_aggregation_overall]
      exact hb

/-- C8 witness: the aggregation conjunct applied to a concrete in-range
dimension set. -/
theorem C8_witness :
    (∀ r ∈ mixedResults, 0 ≤ r.score ∧ r.score ≤ 100 ∧ 0 ≤ r.weight) ∧
    0 ≤ (rule_based_aggregation mixedResults { }).overall_score ∧
    (rule_based_aggregation mixedResults { }).overall_score ≤ 100 := by
  have hh : ∀ r ∈ mixedResults, 0 ≤ r.score ∧ r.score ≤ 100 ∧ 0 ≤ r.weight := by
    intro r hr
    simp only [mixedResults, List.mem_cons, List.not_mem_nil, or_false] at hr
    rcases hr with h | h | h <;> subst h <;> norm_num
  obtain ⟨h1, h2⟩ := ((C8_score_bounds.2.2.2.2 mixedResults { }) hh).1
  exact ⟨hh, h1, h2⟩

/-- **C3.** For a fixed application id and fixed self-reported inputs,
repeated invocations of `pull_credit_report` are NOT identical: the report
depends on the day the call runs.  At application id "app-1" with all-empty
inputs, two pulls one day apart agree on the credit score, on every
tradeline's payment history, creditor, account type and status, and on
every inquiry's creditor, yet every tradeline `opened_date` and every
inquiry `date` differs between the two pulls — refuting "byte-identical
output across repeated invocations" for any pair of invocations that
straddle a date change. -/
theorem C3_time_dependent_report :
    (c3Report 0).credit_score = (c3Report 1).credit_score ∧
    (c3Report 0).tradelines.map (fun t => t.payment_history_24m) =
      (c3Report 1).tradelines.map (fun t => t.payment_history_24m) ∧
    (c3Report 0).tradelines.map (fun t => (t.account_type, t.creditor, t.status)) =
      (c3Report 1).tradelines.map (fun t => (t.account_type, t.creditor, t.status)) ∧
    (c3Report 0).inquiries.map (fun i => i.creditor) =
      (c3Report 1).inquiries.map (fun i => i.creditor) ∧
    (c3Report 0).tradelines.map (fun t => t.opened_date) ≠
      (c3Report 1).tradelines.map (fun t => t.opened_date) ∧
    (c3Report 0).inquiries.map (fun i => i.date) ≠
      (c3Report 1).inquiries.map (fun i => i.date) := by
  refine ⟨?_, ?_, ?_, ?_, ?_, ?_⟩ <;> decide

end Mortgage
